import Mathlib

/-!
Verification of `makesnapshots.py` (aws-snapshot-tool): a shallow embedding of
the snapshot rotation script and proofs about its retention selection,
classification, tag propagation, completion polling, CLI validation, and the
per-volume error-isolation loop.

Machine integers do not occur in the script; counters are unbounded Python
ints, embedded as `Nat`.  Python strings are compared lexicographically by
code point, embedded via `charListLE` on `String.data`.  Exceptions are
embedded with `Except`: a step that raises produces `Except.error` carrying
the run state at the moment of the raise (Python globals mutated before the
raise keep their values).
-/

/-! ## String primitives (Python code-point comparison and prefix test) -/

/-- Code-point comparison of two characters, as Python compares characters. -/
def charLT (a b : Char) : Bool := a.toNat < b.toNat

/-- Lexicographic code-point comparison of character lists: the order Python
uses on strings (`deletelist.sort` sorts `start_time` strings with it). -/
def charListLE : List Char → List Char → Bool
  | [], _ => true
  | _ :: _, [] => false
  | a :: as, b :: bs =>
    if charLT a b then true
    else if charLT b a then false
    else charListLE as bs

/-- Python `a <= b` on strings. -/
def strLE (a b : String) : Bool := charListLE a.data b.data

/-- Python `s.startswith(pre)`. -/
def strStartsWith (s pre : String) : Bool := pre.data.isPrefixOf s.data

theorem charListLE_cons (a b : Char) (as bs : List Char) :
    charListLE (a :: as) (b :: bs) = true ↔
      (a.toNat < b.toNat ∨ (a.toNat = b.toNat ∧ charListLE as bs = true)) := by
  simp only [charListLE, charLT]
  by_cases h1 : a.toNat < b.toNat
  · simp [h1]
  · by_cases h2 : b.toNat < a.toNat
    · simp [h1, h2]
      omega
    · have h3 : a.toNat = b.toNat := by omega
      simp [h1, h2, h3]

theorem charListLE_refl (as : List Char) : charListLE as as = true := by
  induction as with
  | nil => rfl
  | cons a as ih => rw [charListLE_cons]; exact Or.inr ⟨rfl, ih⟩

theorem charListLE_total (as bs : List Char) :
    charListLE as bs = true ∨ charListLE bs as = true := by
  induction as generalizing bs with
  | nil => left; rfl
  | cons a as ih =>
    cases bs with
    | nil => right; rfl
    | cons b bs =>
      rw [charListLE_cons, charListLE_cons]
      rcases Nat.lt_trichotomy a.toNat b.toNat with h | h | h
      · exact Or.inl (Or.inl h)
      · rcases ih bs with h' | h'
        · exact Or.inl (Or.inr ⟨h, h'⟩)
        · exact Or.inr (Or.inr ⟨h.symm, h'⟩)
      · exact Or.inr (Or.inl h)

theorem charListLE_trans (as bs cs : List Char) (h1 : charListLE as bs = true)
    (h2 : charListLE bs cs = true) : charListLE as cs = true := by
  induction as generalizing bs cs with
  | nil => rfl
  | cons a as ih =>
    cases bs with
    | nil => simp [charListLE] at h1
    | cons b bs =>
      cases cs with
      | nil => simp [charListLE] at h2
      | cons c cs =>
        rw [charListLE_cons] at h1 h2 ⊢
        rcases h1 with h1 | ⟨h1e, h1r⟩
        · rcases h2 with h2 | ⟨h2e, _⟩
          · exact Or.inl (Nat.lt_trans h1 h2)
          · exact Or.inl (by omega)
        · rcases h2 with h2 | ⟨h2e, h2r⟩
          · exact Or.inl (by omega)
          · exact Or.inr ⟨by omega, ih bs cs h1r h2r⟩

/-! ## Snapshots and the retention sort

`makesnapshots.py` sorts `deletelist` with `deletelist.sort(key=date_compare)`
where `date_compare` returns `snapshot.start_time`.  Python's sort is a stable
ascending sort; it is embedded as a stable insertion sort by `start_time`. -/

/-- A source-region snapshot: id, free-text description (the only carrier of
the rotation period), and its `start_time` string. -/
structure Snapshot where
  sid : String
  description : String
  start_time : String
  deriving Repr, DecidableEq

/-- The sort key used by the script: `date_compare(snapshot)` returns
`snapshot.start_time`. -/
def date_compare (snapshot : Snapshot) : String := snapshot.start_time

/-- Comparison underlying `deletelist.sort(key=date_compare)`. -/
def snapLE (a b : Snapshot) : Bool := strLE (date_compare a) (date_compare b)

/-- Insert a snapshot into an already sorted list, before the first strictly
later element (so that, folding the original list left to right, equal keys
keep their original relative order — Python's sort is stable). -/
def insertOldest (s : Snapshot) : List Snapshot → List Snapshot
  | [] => [s]
  | t :: ts => if snapLE s t then s :: t :: ts else t :: insertOldest s ts

/-- `deletelist.sort(key=date_compare)`: stable ascending sort by start time. -/
def sortSnaps : List Snapshot → List Snapshot
  | [] => []
  | s :: rest => insertOldest s (sortSnaps rest)

theorem snapLE_refl (a : Snapshot) : snapLE a a = true := charListLE_refl _

theorem snapLE_total (a b : Snapshot) : snapLE a b = true ∨ snapLE b a = true :=
  charListLE_total _ _

theorem snapLE_trans {a b c : Snapshot} (h1 : snapLE a b = true) (h2 : snapLE b c = true) :
    snapLE a c = true :=
  charListLE_trans _ _ _ h1 h2

theorem length_insertOldest (s : Snapshot) (l : List Snapshot) :
    (insertOldest s l).length = l.length + 1 := by
  induction l with
  | nil => rfl
  | cons t ts ih =>
    simp only [insertOldest]
    by_cases h : snapLE s t = true
    · simp [h]
    · simp [h, ih]

theorem perm_insertOldest (s : Snapshot) (l : List Snapshot) :
    (insertOldest s l).Perm (s :: l) := by
  induction l with
  | nil => exact List.Perm.refl _
  | cons t ts ih =>
    simp only [insertOldest]
    by_cases h : snapLE s t = true
    · simp [h]
    · rw [if_neg h]
      exact (ih.cons t).trans (List.Perm.swap s t ts)

theorem perm_sortSnaps (l : List Snapshot) : (sortSnaps l).Perm l := by
  induction l with
  | nil => exact List.Perm.refl _
  | cons s rest ih =>
    exact (perm_insertOldest s (sortSnaps rest)).trans (ih.cons s)

theorem length_sortSnaps (l : List Snapshot) : (sortSnaps l).length = l.length :=
  (perm_sortSnaps l).length_eq

theorem pairwise_insertOldest (s : Snapshot) (l : List Snapshot)
    (h : l.Pairwise (fun a b => snapLE a b = true)) :
    (insertOldest s l).Pairwise (fun a b => snapLE a b = true) := by
  induction l with
  | nil => simp [insertOldest]
  | cons t ts ih =>
    simp only [insertOldest]
    rcases List.pairwise_cons.mp h with ⟨ht, hts⟩
    by_cases hle : snapLE s t = true
    · rw [if_pos hle]
      refine List.pairwise_cons.mpr ⟨?_, h⟩
      intro b hb
      rcases List.mem_cons.mp hb with hb | hb
      · exact hb ▸ hle
      · exact snapLE_trans hle (ht _ hb)
    · rw [if_neg hle]
      have hts' := ih hts
      refine List.pairwise_cons.mpr ⟨?_, hts'⟩
      intro b hb
      have hb' := (perm_insertOldest s ts).mem_iff.mp hb
      rcases List.mem_cons.mp hb' with rfl | hb'
      · rcases snapLE_total b t with h' | h'
        · exact absurd h' hle
        · exact h'
      · exact ht _ hb'

theorem pairwise_sortSnaps (l : List Snapshot) :
    (sortSnaps l).Pairwise (fun a b => snapLE a b = true) := by
  induction l with
  | nil => simp [sortSnaps]
  | cons s rest ih => exact pairwise_insertOldest s (sortSnaps rest) ih

/-! ## Retention selection (the deletion loop's choice of snapshots)

The script computes `delta = len(deletelist) - keep` (a Python int, possibly
negative) and deletes `deletelist[i]` for `i in range(delta)` after the
ascending sort; `range` of a non-positive int is empty, so the prefix taken
has length `max(0, len - keep)`, embedded as `Int.toNat`. -/

/-- `delta = len(deletelist) - keep` as the Python int. -/
def deletionDelta (n keep : Nat) : Int := (n : Int) - (keep : Int)

/-- The snapshots the deletion loop iterates over: the first
`max(0, len - keep)` elements of the ascending stable sort. -/
def selectForDeletion (cands : List Snapshot) (keep : Nat) : List Snapshot :=
  (sortSnaps cands).take (deletionDelta cands.length keep).toNat

/-- The snapshots the loop does not touch: the rest of the sorted list. -/
def retainedAfterDeletion (cands : List Snapshot) (keep : Nat) : List Snapshot :=
  (sortSnaps cands).drop (deletionDelta cands.length keep).toNat

/-- C1: for every keep-count `k` and candidate list of length `n`, the
retention selection (stable ascending sort by creation time, then the first
`max(0, n-k)` elements) marks exactly `max(0, n-k)` snapshots — so none when
`n ≤ k` and never a negative count — they all come from the candidate list,
and each marked snapshot is no younger than every retained one (they are the
`n-k` oldest). -/
theorem C1_retention_selection (cands : List Snapshot) (keep : Nat) :
    (selectForDeletion cands keep).length = cands.length - keep
    ∧ (cands.length ≤ keep → selectForDeletion cands keep = [])
    ∧ (∀ s ∈ selectForDeletion cands keep, s ∈ cands)
    ∧ (∀ s ∈ selectForDeletion cands keep, ∀ t ∈ retainedAfterDeletion cands keep,
        snapLE s t = true) := by
  have hdelta : (deletionDelta cands.length keep).toNat = cands.length - keep := by
    unfold deletionDelta; omega
  refine ⟨?_, ?_, ?_, ?_⟩
  · rw [selectForDeletion, hdelta, List.length_take, length_sortSnaps]
    omega
  · intro h
    rw [selectForDeletion, hdelta]
    have : cands.length - keep = 0 := by omega
    rw [this, List.take_zero]
  · intro s hs
    have hs' : s ∈ sortSnaps cands := List.mem_of_mem_take hs
    exact (perm_sortSnaps cands).mem_iff.mp hs'
  · intro s hs t ht
    have hsplit : sortSnaps cands =
        selectForDeletion cands keep ++ retainedAfterDeletion cands keep :=
      (List.take_append_drop _ _).symm
    have hp := pairwise_sortSnaps cands
    rw [hsplit] at hp
    exact ((List.pairwise_append.mp hp).2.2) s hs t ht

/-- Witness for C1 at concrete inputs: with 1 candidate and keep-count 3
nothing is selected, and with 3 candidates and keep-count 1 the selection has
length 2. -/
theorem C1_retention_selection_witness :
    selectForDeletion [⟨"snap-1", "day_snapshot a", "2020-01-01"⟩] 3 = []
    ∧ (selectForDeletion [⟨"snap-1", "day_snapshot a", "2020-01-03"⟩,
        ⟨"snap-2", "day_snapshot b", "2020-01-01"⟩,
        ⟨"snap-3", "day_snapshot c", "2020-01-02"⟩] 1).length = 3 - 1 :=
  ⟨(C1_retention_selection [⟨"snap-1", "day_snapshot a", "2020-01-01"⟩] 3).2.1 (by decide),
   (C1_retention_selection [⟨"snap-1", "day_snapshot a", "2020-01-03"⟩,
      ⟨"snap-2", "day_snapshot b", "2020-01-01"⟩,
      ⟨"snap-3", "day_snapshot c", "2020-01-02"⟩] 1).1⟩

/-! ## Rotation periods and classification

The CLI guard guarantees `period` is one of `day`, `week`, `month`.  A
volume's snapshot enters `deletelist` exactly when its description passes the
`if/elif` chain of `startswith` tests against the active period; otherwise a
skip line is logged. -/

/-- The rotation period selected on the command line. -/
inductive Period where
  | day
  | week
  | month
  deriving Repr, DecidableEq

/-- The string value of the `period` variable. -/
def periodStr : Period → String
  | Period.day => "day"
  | Period.week => "week"
  | Period.month => "month"

/-- The `if/elif` chain deciding membership in `deletelist`:
`sndesc.startswith('week_snapshot') and period == 'week'`, then the `day` and
`month` analogues, else skip. -/
def inDeletelist (period : Period) (sndesc : String) : Bool :=
  if strStartsWith sndesc "week_snapshot" && (period == Period.week) then true
  else if strStartsWith sndesc "day_snapshot" && (period == Period.day) then true
  else if strStartsWith sndesc "month_snapshot" && (period == Period.month) then true
  else false

/-- The skip line logged for a snapshot not added to `deletelist`. -/
def skipLine (sndesc : String) : String :=
  "     Skipping, not added to deletelist: " ++ sndesc

/-- The classification loop over `vol.snapshots()`: returns the `deletelist`
it builds and the skip lines it logs. -/
def buildDeletelist (period : Period) : List Snapshot → List Snapshot × List String
  | [] => ([], [])
  | snap :: rest =>
    let r := buildDeletelist period rest
    if inDeletelist period snap.description then (snap :: r.1, r.2)
    else (r.1, skipLine snap.description :: r.2)

theorem buildDeletelist_fst (period : Period) (snaps : List Snapshot) :
    (buildDeletelist period snaps).1 =
      snaps.filter (fun s => inDeletelist period s.description) := by
  induction snaps with
  | nil => rfl
  | cons snap rest ih =>
    simp only [buildDeletelist, List.filter]
    by_cases h : inDeletelist period snap.description = true
    · simp [h, ih]
    · simp only [Bool.not_eq_true] at h
      simp [h, ih]

theorem buildDeletelist_snd (period : Period) (snaps : List Snapshot) :
    (buildDeletelist period snaps).2 =
      (snaps.filter (fun s => !(inDeletelist period s.description))).map
        (fun s => skipLine s.description) := by
  induction snaps with
  | nil => rfl
  | cons snap rest ih =>
    simp only [buildDeletelist, List.filter]
    by_cases h : inDeletelist period snap.description = true
    · simp [h, ih]
    · simp only [Bool.not_eq_true] at h
      simp [h, ih]

theorem inDeletelist_iff (p : Period) (sndesc : String) :
    inDeletelist p sndesc = true ↔
      strStartsWith sndesc (periodStr p ++ "_snapshot") = true := by
  cases p <;> simp [inDeletelist, periodStr]

/-! ## Tag propagation (`set_resource_tags`)

`set_resource_tags(resource, tags)` iterates over `tags.items()` and calls
`resource.add_tag(tag_key, tag_value)` only when the key is absent from
`resource.tags` or present with a different value; `add_tag` also stores the
pair in the resource's local tag dict.  Tag dicts are embedded as associative
lists with unique keys in insertion order; `dictSet` is Python dict
assignment (update in place, or append a new key). -/

/-- Python dict assignment `d[k] = v` on an insertion-ordered assoc list. -/
def dictSet : List (String × String) → String → String → List (String × String)
  | [], k, v => [(k, v)]
  | (a, b) :: m, k, v => if a == k then (k, v) :: m else (a, b) :: dictSet m k v

/-- The `set_resource_tags` loop: returns the resource's tag dict after the
loop together with the list of `add_tag` provider calls it issued, in order. -/
def set_resource_tags : List (String × String) → List (String × String) →
    List (String × String) × List (String × String)
  | resource_tags, [] => (resource_tags, [])
  | resource_tags, kv :: rest =>
    if resource_tags.lookup kv.1 == some kv.2 then
      set_resource_tags resource_tags rest
    else
      let r := set_resource_tags (dictSet resource_tags kv.1 kv.2) rest
      (r.1, kv :: r.2)

theorem lookup_dictSet_self (m : List (String × String)) (k v : String) :
    (dictSet m k v).lookup k = some v := by
  induction m with
  | nil => simp [dictSet, List.lookup]
  | cons p m ih =>
    obtain ⟨a, b⟩ := p
    by_cases hak : a = k
    · simp [dictSet, hak, List.lookup]
    · have h1 : (a == k) = false := beq_eq_false_iff_ne.mpr hak
      have h2 : (k == a) = false := beq_eq_false_iff_ne.mpr (Ne.symm hak)
      simp [dictSet, h1, List.lookup, h2, ih]

theorem lookup_dictSet_ne (m : List (String × String)) (k v k' : String) (h : k' ≠ k) :
    (dictSet m k v).lookup k' = m.lookup k' := by
  induction m with
  | nil => simp [dictSet, List.lookup, beq_eq_false_iff_ne.mpr h]
  | cons p m ih =>
    obtain ⟨a, b⟩ := p
    by_cases hak : a = k
    · subst hak
      simp [dictSet, List.lookup, beq_eq_false_iff_ne.mpr h]
    · simp [dictSet, beq_eq_false_iff_ne.mpr hak, List.lookup, ih]

theorem set_resource_tags_all_match (rt tags : List (String × String))
    (h : ∀ kv ∈ tags, rt.lookup kv.1 = some kv.2) :
    set_resource_tags rt tags = (rt, []) := by
  induction tags with
  | nil => rfl
  | cons a rest ih =>
    have ha : rt.lookup a.1 = some a.2 := h a (List.mem_cons_self a rest)
    simp only [set_resource_tags, ha, beq_self_eq_true, if_pos]
    exact ih fun kv hkv => h kv (List.mem_cons_of_mem a hkv)

theorem set_resource_tags_lookup_other (rt tags : List (String × String)) (k : String)
    (h : ∀ kv ∈ tags, kv.1 ≠ k) :
    ((set_resource_tags rt tags).1).lookup k = rt.lookup k := by
  induction tags generalizing rt with
  | nil => rfl
  | cons a rest ih =>
    have ha : a.1 ≠ k := h a (List.mem_cons_self a rest)
    have hrest : ∀ kv ∈ rest, kv.1 ≠ k := fun kv hkv => h kv (List.mem_cons_of_mem a hkv)
    simp only [set_resource_tags]
    by_cases hc : (rt.lookup a.1 == some a.2) = true
    · rw [if_pos hc]
      exact ih rt hrest
    · rw [if_neg hc]
      rw [ih (dictSet rt a.1 a.2) hrest]
      exact lookup_dictSet_ne rt a.1 a.2 k (fun he => ha he.symm)

theorem set_resource_tags_lookup_done (rt tags : List (String × String))
    (hnd : (tags.map Prod.fst).Nodup) :
    ∀ kv ∈ tags, ((set_resource_tags rt tags).1).lookup kv.1 = some kv.2 := by
  induction tags generalizing rt with
  | nil => intro kv hkv; cases hkv
  | cons a rest ih =>
    rw [List.map_cons, List.nodup_cons] at hnd
    obtain ⟨hhead, hrestnd⟩ := hnd
    have hne : ∀ kv ∈ rest, kv.1 ≠ a.1 := by
      intro kv hkv he
      exact hhead (he ▸ List.mem_map_of_mem Prod.fst hkv)
    intro kv hkv
    rcases List.mem_cons.mp hkv with rfl | hkv
    · simp only [set_resource_tags]
      by_cases hc : (rt.lookup kv.1 == some kv.2) = true
      · rw [if_pos hc]
        rw [set_resource_tags_lookup_other rt rest kv.1 hne]
        exact beq_iff_eq.mp hc
      · rw [if_neg hc]
        rw [set_resource_tags_lookup_other (dictSet rt kv.1 kv.2) rest kv.1 hne]
        exact lookup_dictSet_self rt kv.1 kv.2
    · simp only [set_resource_tags]
      by_cases hc : (rt.lookup a.1 == some a.2) = true
      · rw [if_pos hc]
        exact ih rt hrestnd kv hkv
      · rw [if_neg hc]
        exact ih (dictSet rt a.1 a.2) hrestnd kv hkv

theorem set_resource_tags_calls (rt tags : List (String × String))
    (hnd : (tags.map Prod.fst).Nodup) :
    (set_resource_tags rt tags).2 =
      tags.filter (fun kv => !(rt.lookup kv.1 == some kv.2)) := by
  induction tags generalizing rt with
  | nil => rfl
  | cons a rest ih =>
    rw [List.map_cons, List.nodup_cons] at hnd
    obtain ⟨hhead, hrestnd⟩ := hnd
    have hne : ∀ kv ∈ rest, kv.1 ≠ a.1 := by
      intro kv hkv he
      exact hhead (he ▸ List.mem_map_of_mem Prod.fst hkv)
    simp only [set_resource_tags, List.filter]
    by_cases hc : (rt.lookup a.1 == some a.2) = true
    · simp only [hc, Bool.not_true, if_pos]
      exact ih rt hrestnd
    · simp only [hc, Bool.not_false, if_neg, Bool.false_eq_true, not_false_iff]
      rw [ih (dictSet rt a.1 a.2) hrestnd]
      have : ∀ kv ∈ rest,
          (!((dictSet rt a.1 a.2).lookup kv.1 == some kv.2)) =
            (!(rt.lookup kv.1 == some kv.2)) := by
        intro kv hkv
        rw [lookup_dictSet_ne rt a.1 a.2 kv.1 (hne kv hkv)]
      rw [List.filter_congr this]

/-- C7: each tag is set on the target only when it is absent or differs in
value (the provider calls of the first run are exactly the absent-or-differing
pairs), and a second run with the same tag map, on the tag state the first
run produced, issues no provider calls at all. -/
theorem C7_tag_propagation_idempotent (rt tags : List (String × String))
    (hnd : (tags.map Prod.fst).Nodup) :
    (set_resource_tags rt tags).2 =
      tags.filter (fun kv => !(rt.lookup kv.1 == some kv.2))
    ∧ set_resource_tags (set_resource_tags rt tags).1 tags =
        ((set_resource_tags rt tags).1, []) := by
  refine ⟨set_resource_tags_calls rt tags hnd, ?_⟩
  exact set_resource_tags_all_match _ _ (set_resource_tags_lookup_done rt tags hnd)

/-- Witness for C7 at a concrete input: a resource already tagged
`Name=web` receiving `Name=web, role=db` issues exactly the `role=db` call,
and the second run issues none. -/
theorem C7_tag_propagation_idempotent_witness :
    (set_resource_tags [("Name", "web")] [("Name", "web"), ("role", "db")]).2 =
      [("Name", "web"), ("role", "db")].filter
        (fun kv => !(List.lookup kv.1 [("Name", "web")] == some kv.2))
    ∧ set_resource_tags
        (set_resource_tags [("Name", "web")] [("Name", "web"), ("role", "db")]).1
        [("Name", "web"), ("role", "db")] =
        ((set_resource_tags [("Name", "web")] [("Name", "web"), ("role", "db")]).1, []) :=
  C7_tag_propagation_idempotent [("Name", "web")] [("Name", "web"), ("role", "db")]
    (by decide)

/-! ## The completion wait (`while True: if status == 'completed': break ...`)

The copy step waits with an unbounded loop: check the snapshot's status, break
on `'completed'`, else `time.sleep(5)`, re-fetch (`update(validate=True)`)
and check again.  `status n` is the status observed at the n-th check; the
loop is embedded with explicit fuel, and returns the index of the first
`'completed'` observation or `none` when the fuel runs out.  The real loop
has no timeout, so `none` for every fuel is non-termination. -/

/-- The completion wait with fuel: from check number `n`, return the first
check index at which `'completed'` is observed. -/
def completionWait (status : Nat → String) : Nat → Nat → Option Nat
  | _, 0 => none
  | n, fuel + 1 =>
    if status n = "completed" then some n else completionWait status (n + 1) fuel

/-- C8: the completion wait returns only when the status it observed is
`'completed'` (the cross-region copy request is sequenced strictly after this
wait in the copy step), and it has no timeout: on a status stream that never
becomes `'completed'` it returns nothing however much fuel it is given —
the real unbounded loop never terminates. -/
theorem C8_completion_wait (status : Nat → String) :
    (∀ n fuel r, completionWait status n fuel = some r → status r = "completed")
    ∧ ((∀ n, status n ≠ "completed") → ∀ n fuel, completionWait status n fuel = none) := by
  constructor
  · intro n fuel r h
    induction fuel generalizing n with
    | zero => cases h
    | succ fuel ih =>
      simp only [completionWait] at h
      by_cases hc : status n = "completed"
      · rw [if_pos hc] at h
        cases h
        exact hc
      · rw [if_neg hc] at h
        exact ih (n + 1) h
  · intro hnever n fuel
    induction fuel generalizing n with
    | zero => rfl
    | succ fuel ih =>
      simp only [completionWait, if_neg (hnever n)]
      exact ih (n + 1)

/-- Witness for C8 at a concrete input: on the constant `'pending'` stream the
wait makes no progress in 7 checks (and, by the theorem, in any number). -/
theorem C8_completion_wait_witness :
    completionWait (fun _ => "pending") 0 7 = none :=
  (C8_completion_wait (fun _ => "pending")).2 (fun n => by decide) 0 7

/-! ## CLI validation

Everything in the script before the argument check is imports and the config
load; `logging.basicConfig`, the start-message log line, the AWS connection
and every provider call come strictly after it.  A missing or unknown
positional argument prints a usage line and calls `quit()`. -/

/-- Outcome of the `sys.argv` check at the top of the script. -/
inductive CliOutcome where
  | usage (msg : String)
  | proceed (period : Period) (date_suffix : String)
  deriving Repr, DecidableEq

/-- The positional argument `sys.argv[i]` (read only after the length check,
so the default never surfaces). -/
def argOrEmpty (argv : List String) (i : Nat) : String := argv.getD i ""

/-- The `sys.argv` validation: `argv[0]` is the script name; `weekday`,
`weeknum` and `monthname` are today's `%a`, `%U` and `%b` strings. -/
def parseArgv (argv : List String) (weekday weeknum monthname : String) : CliOutcome :=
  if argv.length < 2 then
    CliOutcome.usage "Please add a positional argument: day, week or month."
  else if argOrEmpty argv 1 = "day" then CliOutcome.proceed Period.day weekday
  else if argOrEmpty argv 1 = "week" then CliOutcome.proceed Period.week weeknum
  else if argOrEmpty argv 1 = "month" then CliOutcome.proceed Period.month monthname
  else CliOutcome.usage "Please use the parameter day, week or month"

/-- What the process has done by the end of the argument check: lines printed
to stdout, log lines written, provider calls made, and whether the run
proceeds.  On the proceed path the start message is logged and the volume
listing is (eventually) requested; on the usage path `quit()` fires first. -/
structure StartupResult where
  printed : List String
  logLines : List String
  providerCalls : Nat
  proceeded : Option Period
  deriving Repr, DecidableEq

/-- The observable prefix of the run up to (and including) the argument
check, per the script's statement order. -/
def programStartup (argv : List String) (weekday weeknum monthname startMsg : String) :
    StartupResult :=
  match parseArgv argv weekday weeknum monthname with
  | CliOutcome.usage m =>
    { printed := [m], logLines := [], providerCalls := 0, proceeded := none }
  | CliOutcome.proceed p _ =>
    { printed := ["Connecting to AWS"], logLines := [startMsg], providerCalls := 1,
      proceeded := some p }

/-- C6: whenever the first positional argument is missing or is not one of
`day`, `week`, `month`, the program prints a usage message and stops before
any provider call, with no log entries written. -/
theorem C6_cli_validation (argv : List String) (weekday weeknum monthname startMsg : String)
    (h : argv.length < 2 ∨
      (argOrEmpty argv 1 ≠ "day" ∧ argOrEmpty argv 1 ≠ "week" ∧ argOrEmpty argv 1 ≠ "month")) :
    (programStartup argv weekday weeknum monthname startMsg).proceeded = none
    ∧ (programStartup argv weekday weeknum monthname startMsg).logLines = []
    ∧ (programStartup argv weekday weeknum monthname startMsg).providerCalls = 0
    ∧ ((programStartup argv weekday weeknum monthname startMsg).printed =
          ["Please add a positional argument: day, week or month."]
        ∨ (programStartup argv weekday weeknum monthname startMsg).printed =
          ["Please use the parameter day, week or month"]) := by
  rcases h with h | ⟨h1, h2, h3⟩
  · simp only [programStartup, parseArgv, if_pos h]
    exact ⟨trivial, trivial, trivial, Or.inl trivial⟩
  · by_cases hl : argv.length < 2
    · simp only [programStartup, parseArgv, if_pos hl]
      exact ⟨trivial, trivial, trivial, Or.inl trivial⟩
    · simp only [programStartup, parseArgv, if_neg hl, if_neg h1, if_neg h2, if_neg h3]
      exact ⟨trivial, trivial, trivial, Or.inr trivial⟩

/-- Witness for C6 at the concrete invocation `makesnapshots.py year`. -/
theorem C6_cli_validation_witness :
    (programStartup ["makesnapshots.py", "year"] "Mon" "02" "Jan" "start").proceeded = none
    ∧ (programStartup ["makesnapshots.py", "year"] "Mon" "02" "Jan" "start").logLines = []
    ∧ (programStartup ["makesnapshots.py", "year"] "Mon" "02" "Jan" "start").providerCalls = 0
    ∧ ((programStartup ["makesnapshots.py", "year"] "Mon" "02" "Jan" "start").printed =
          ["Please add a positional argument: day, week or month."]
        ∨ (programStartup ["makesnapshots.py", "year"] "Mon" "02" "Jan" "start").printed =
          ["Please use the parameter day, week or month"]) :=
  C6_cli_validation ["makesnapshots.py", "year"] "Mon" "02" "Jan" "start"
    (Or.inr (by decide))

/-! ## The per-volume run loop

The volume loop mutates module-level state: counters, `message`/`errmsg`,
the log, and — crucially — the loop-scoped names `current_snap` (assigned
only when `vol.create_snapshot` succeeds, so it can dangle from a previous
volume) and `dest_conn` (assigned inside the copy step's `try`, after the
completion wait, so it may never be bound).  Reading an unassigned name
raises `NameError`, which the surrounding handlers treat like any other
exception.

Provider behaviour is an explicit per-volume environment: which calls
succeed, what `vol.snapshots()` returns, and the destination region's
snapshot inventory.  The inner `try/except` around creation and the one
around the copy step swallow their exceptions; anything else is caught by
the per-volume `except:`, which appends to `errmsg`, logs the volume id and
increments `count_errors`; the `else:` branch increments `count_success`. -/

/-- A destination-region snapshot as `describe_snapshots` sees it. -/
structure DestSnapshot where
  sid : String
  tags : List (String × String)
  ownedSelf : Bool
  deriving Repr, DecidableEq

/-- The configuration and date context of one invocation. -/
structure Config where
  period : Period
  date_suffix : String
  date : String
  copy_region_name : Option String
  keep_day : Nat
  keep_week : Nat
  keep_month : Nat
  ec2_region_name : String
  sns_arn : Option String
  deriving Repr, DecidableEq

/-- The provider's behaviour while one volume is processed: outcomes of the
fallible calls, the ids the provider assigns, the volume's snapshot list, and
the destination region's inventory at cascade time. -/
structure VolumeEnv where
  vid : String
  tagsOk : Bool
  tags_volume : List (String × String)
  createOk : Bool
  newSnapId : String
  newSnapStart : String
  clientOk : Bool
  copyOk : Bool
  copiedSnapId : String
  snapsOk : Bool
  snapshots : List Snapshot
  destSnapshots : List DestSnapshot
  deriving Repr, DecidableEq

/-- The script's mutable module-level state, plus the trace of provider calls
it has issued (deletions, polls, copies, tagging of copies, destination
queries and destination deletions). -/
structure RunState where
  total_creates : Nat
  total_copies : Nat
  total_deletes : Nat
  count_errors : Nat
  count_success : Nat
  count_total : Nat
  errmsg : String
  current_snap : Option Snapshot
  dest_conn : Bool
  log : List String
  deleteCalls : List String
  pollCalls : List String
  copyCalls : List String
  copyTagCalls : List (String × List (String × String))
  destQueryCalls : List String
  destDeleteCalls : List String
  deriving Repr, DecidableEq

/-- The state at the start of the volume loop. -/
def initState : RunState :=
  { total_creates := 0, total_copies := 0, total_deletes := 0, count_errors := 0,
    count_success := 0, count_total := 0, errmsg := "", current_snap := none,
    dest_conn := false, log := [], deleteCalls := [], pollCalls := [],
    copyCalls := [], copyTagCalls := [], destQueryCalls := [],
    destDeleteCalls := [] }

/-- The description string built for each volume:
`<period>_snapshot <vol_id>_<period>_<date_suffix> by snapshot script at <date>`. -/
def mkDescription (cfg : Config) (vid : String) : String :=
  periodStr cfg.period ++ "_snapshot " ++ vid ++ "_" ++ periodStr cfg.period ++ "_" ++
    cfg.date_suffix ++ " by snapshot script at " ++ cfg.date

/-- The snapshot `vol.create_snapshot(description)` returns when it succeeds. -/
def newSnapOf (cfg : Config) (v : VolumeEnv) : Snapshot :=
  { sid := v.newSnapId, description := mkDescription cfg v.vid,
    start_time := v.newSnapStart }

/-- The inner `try` around snapshot creation: on success `current_snap` is
bound, the volume's tags are copied onto it, and `total_creates` increments;
on failure the exception is swallowed and only logged (`current_snap` keeps
whatever binding it had from an earlier volume). -/
def createStep (cfg : Config) (v : VolumeEnv) (st : RunState) : RunState :=
  if v.createOk then
    { st with current_snap := some (newSnapOf cfg v),
              total_creates := st.total_creates + 1,
              log := st.log ++
                ["Snapshot created with description: " ++ mkDescription cfg v.vid] }
  else
    { st with log := st.log ++ ["error: snapshot creation failed"] }

/-- `tags_volume.get('Name') or current_snap.id`: Python `or` falls through
on `None` and on the empty string. -/
def nameTagValue (tags_volume : List (String × String)) (sid : String) : String :=
  match tags_volume.lookup "Name" with
  | some v => if v = "" then sid else v
  | none => sid

/-- The copy step's `try`: wait for `current_snap` to complete (a `NameError`
if it was never bound), build the destination client (binding `dest_conn`),
request the copy of `current_snap.id` and tag the copy with
`source_snapshot_id = current_snap.id` and the Name fallback.  Any exception
is swallowed and logged. -/
def copyStep (v : VolumeEnv) (st : RunState) : RunState :=
  match st.current_snap with
  | none => { st with log := st.log ++ ["error: copy step failed"] }
  | some snap =>
    let st1 := { st with pollCalls := st.pollCalls ++ [snap.sid] }
    if v.clientOk then
      let st2 := { st1 with dest_conn := true }
      if v.copyOk then
        { st2 with
          copyCalls := st2.copyCalls ++ [snap.sid],
          copyTagCalls := st2.copyTagCalls ++
            [(v.copiedSnapId,
              [("source_snapshot_id", snap.sid),
               ("Name", nameTagValue v.tags_volume snap.sid)])],
          total_copies := st2.total_copies + 1,
          log := st2.log ++ ["Snapshot copied"] }
      else { st2 with log := st2.log ++ ["error: copy step failed"] }
    else { st1 with log := st1.log ++ ["error: copy step failed"] }

/-- The destination snapshots `describe_snapshots(OwnerIds=['self'],
Filters=[tag:source_snapshot_id = sid])` returns. -/
def cascadeTargets (dest : List DestSnapshot) (sid : String) : List DestSnapshot :=
  dest.filter (fun d => d.ownedSelf && (d.tags.lookup "source_snapshot_id" == some sid))

/-- One iteration of the deletion loop: delete `deletelist[i]`, then read
`dest_conn` — a `NameError` (`Except.error`) when it was never bound —
and cascade-delete the copies the destination query returned; only then
increment `total_deletes`. -/
def deleteOne (dest : List DestSnapshot) (snap : Snapshot) (st : RunState) :
    Except RunState RunState :=
  let st1 := { st with
    log := st.log ++ ["     Deleting snapshot " ++ snap.description],
    deleteCalls := st.deleteCalls ++ [snap.sid] }
  if st1.dest_conn then
    let targets := cascadeTargets dest snap.sid
    let st2 := { st1 with
      destQueryCalls := st1.destQueryCalls ++ [snap.sid],
      destDeleteCalls := st1.destDeleteCalls ++ targets.map DestSnapshot.sid,
      log := st1.log ++ targets.map (fun (d : DestSnapshot) => "     Deleting copied snapshot: " ++ d.sid) }
    Except.ok { st2 with total_deletes := st2.total_deletes + 1 }
  else Except.error st1

/-- The deletion loop over the sorted prefix `deletelist[0..delta-1]`. -/
def deletionLoop (dest : List DestSnapshot) :
    List Snapshot → RunState → Except RunState RunState
  | [], st => Except.ok st
  | snap :: rest, st =>
    match deleteOne dest snap st with
    | Except.ok st' => deletionLoop dest rest st'
    | Except.error st' => Except.error st'

/-- `keep` looked up for the active period. -/
def keepFor (cfg : Config) : Nat :=
  match cfg.period with
  | Period.day => cfg.keep_day
  | Period.week => cfg.keep_week
  | Period.month => cfg.keep_month

/-- The first statements of the volume body: `count_total += 1` and
`logging.info(vol)`. -/
def countVol (v : VolumeEnv) (st0 : RunState) : RunState :=
  { st0 with count_total := st0.count_total + 1, log := st0.log ++ [v.vid] }

/-- Creation followed by the optional copy step (the copy block runs only
when `copy_region_name` is configured). -/
def copyPhase (cfg : Config) (v : VolumeEnv) (st : RunState) : RunState :=
  if (cfg.copy_region_name).isSome then copyStep v (createStep cfg v st)
  else createStep cfg v st

/-- The classification pass and its log lines: the skip lines, then one line
per `deletelist` entry (`logging.info(snap)` and `logging.info(snap.start_time)`). -/
def classifyPhase (cfg : Config) (v : VolumeEnv) (st : RunState) : RunState :=
  { st with log := st.log ++ (buildDeletelist cfg.period v.snapshots).2 ++
      ((buildDeletelist cfg.period v.snapshots).1.map (fun s => s.sid ++ " " ++ s.start_time)) }

/-- The slice of the sorted `deletelist` the deletion loop walks:
`deletelist[i]` for `i in range(delta)`. -/
def deletePrefix (cfg : Config) (v : VolumeEnv) : List Snapshot :=
  (sortSnaps (buildDeletelist cfg.period v.snapshots).1).take
    (deletionDelta (buildDeletelist cfg.period v.snapshots).1.length (keepFor cfg)).toNat

/-- The body of the per-volume `try`: count the volume, fetch its tags,
create, optionally copy, classify, sort and delete.  `Except.error` is an
exception reaching the per-volume handler, carrying the state at the raise
(`get_resource_tags` and `vol.snapshots()` are the fallible calls outside the
two inner `try` blocks). -/
def volumeBody (cfg : Config) (v : VolumeEnv) (st0 : RunState) :
    Except RunState RunState :=
  if v.tagsOk then
    if v.snapsOk then
      deletionLoop v.destSnapshots (deletePrefix cfg v)
        (classifyPhase cfg v (copyPhase cfg v (countVol v st0)))
    else Except.error (copyPhase cfg v (countVol v st0))
  else Except.error (countVol v st0)

/-- The per-volume `except:`/`else:` pair: an escaped exception logs the
volume id, appends to `errmsg` and increments `count_errors`; otherwise
`count_success` increments.  Either way the loop continues. -/
def processVolume (cfg : Config) (v : VolumeEnv) (st : RunState) : RunState :=
  match volumeBody cfg v st with
  | Except.ok st' => { st' with count_success := st'.count_success + 1 }
  | Except.error st' =>
    { st' with
      count_errors := st'.count_errors + 1,
      errmsg := st'.errmsg ++ "Error in processing volume with id: " ++ v.vid,
      log := st'.log ++ ["Error in processing volume with id: " ++ v.vid] }

/-- The whole volume loop. -/
def runVolumes (cfg : Config) (vols : List VolumeEnv) (st : RunState) : RunState :=
  match vols with
  | [] => st
  | v :: rest => runVolumes cfg rest (processVolume cfg v st)

/-- The final summary built after the loop, from whatever the counters are. -/
def finalMessage (cfg : Config) (st : RunState) : String :=
  "\nFinished making snapshots at " ++ cfg.date ++ " with " ++
    toString st.count_success ++ " snapshots of " ++ toString st.count_total ++
    " possible.\n\n" ++
  "\nTotal snapshots created: " ++ toString st.total_creates ++
  "\nTotal snapshots copied: " ++ toString st.total_copies ++
  "\nTotal snapshots errors: " ++ toString st.count_errors ++
  "\nTotal snapshots deleted: " ++ toString st.total_deletes ++ "\n"

/-- A full run: process every volume, then build the summary. -/
def runAll (cfg : Config) (vols : List VolumeEnv) : RunState × String :=
  (runVolumes cfg vols initState, finalMessage cfg (runVolumes cfg vols initState))

/-! ## Invariants of the run loop -/

/-- The state carried by either branch of an `Except` result. -/
def exceptState : Except RunState RunState → RunState
  | Except.ok st => st
  | Except.error st => st

theorem createStep_preserved (cfg : Config) (v : VolumeEnv) (st : RunState) :
    (createStep cfg v st).count_total = st.count_total
    ∧ (createStep cfg v st).count_success = st.count_success
    ∧ (createStep cfg v st).count_errors = st.count_errors
    ∧ (createStep cfg v st).total_copies = st.total_copies
    ∧ (createStep cfg v st).total_deletes = st.total_deletes
    ∧ (createStep cfg v st).dest_conn = st.dest_conn
    ∧ (createStep cfg v st).deleteCalls = st.deleteCalls
    ∧ (createStep cfg v st).pollCalls = st.pollCalls
    ∧ (createStep cfg v st).copyCalls = st.copyCalls
    ∧ (createStep cfg v st).copyTagCalls = st.copyTagCalls
    ∧ (createStep cfg v st).destQueryCalls = st.destQueryCalls
    ∧ (createStep cfg v st).destDeleteCalls = st.destDeleteCalls
    ∧ (createStep cfg v st).errmsg = st.errmsg := by
  unfold createStep
  split_ifs <;>
    exact ⟨rfl, rfl, rfl, rfl, rfl, rfl, rfl, rfl, rfl, rfl, rfl, rfl, rfl⟩

theorem createStep_current_snap (cfg : Config) (v : VolumeEnv) (st : RunState) :
    (createStep cfg v st).current_snap =
      if v.createOk then some (newSnapOf cfg v) else st.current_snap := by
  unfold createStep
  split_ifs <;> rfl

theorem createStep_total_creates (cfg : Config) (v : VolumeEnv) (st : RunState) :
    (createStep cfg v st).total_creates =
      st.total_creates + (if v.createOk then 1 else 0) := by
  unfold createStep
  split_ifs <;> simp

theorem copyStep_preserved (v : VolumeEnv) (st : RunState) :
    (copyStep v st).count_total = st.count_total
    ∧ (copyStep v st).count_success = st.count_success
    ∧ (copyStep v st).count_errors = st.count_errors
    ∧ (copyStep v st).total_creates = st.total_creates
    ∧ (copyStep v st).total_deletes = st.total_deletes
    ∧ (copyStep v st).current_snap = st.current_snap
    ∧ (copyStep v st).deleteCalls = st.deleteCalls
    ∧ (copyStep v st).destQueryCalls = st.destQueryCalls
    ∧ (copyStep v st).destDeleteCalls = st.destDeleteCalls
    ∧ (copyStep v st).errmsg = st.errmsg := by
  unfold copyStep
  cases st.current_snap
  · exact ⟨rfl, rfl, rfl, rfl, rfl, rfl, rfl, rfl, rfl, rfl⟩
  · split_ifs <;> exact ⟨rfl, rfl, rfl, rfl, rfl, rfl, rfl, rfl, rfl, rfl⟩

theorem copyStep_none (v : VolumeEnv) (st : RunState) (h : st.current_snap = none) :
    copyStep v st = { st with log := st.log ++ ["error: copy step failed"] } := by
  unfold copyStep
  rw [h]

theorem copyStep_some_pollCalls (v : VolumeEnv) (st : RunState) (s : Snapshot)
    (h : st.current_snap = some s) :
    (copyStep v st).pollCalls = st.pollCalls ++ [s.sid] := by
  unfold copyStep
  rw [h]
  split_ifs <;> rfl

theorem copyStep_some_copyCalls (v : VolumeEnv) (st : RunState) (s : Snapshot)
    (h : st.current_snap = some s) :
    (copyStep v st).copyCalls =
      if v.clientOk && v.copyOk then st.copyCalls ++ [s.sid] else st.copyCalls := by
  unfold copyStep
  rw [h]
  by_cases h1 : v.clientOk = true
  · by_cases h2 : v.copyOk = true
    · simp [h1, h2]
    · simp [h1, h2]
  · simp [h1]

theorem copyStep_some_copyTagCalls (v : VolumeEnv) (st : RunState) (s : Snapshot)
    (h : st.current_snap = some s) :
    (copyStep v st).copyTagCalls =
      if v.clientOk && v.copyOk then
        st.copyTagCalls ++
          [(v.copiedSnapId,
            [("source_snapshot_id", s.sid), ("Name", nameTagValue v.tags_volume s.sid)])]
      else st.copyTagCalls := by
  unfold copyStep
  rw [h]
  by_cases h1 : v.clientOk = true
  · by_cases h2 : v.copyOk = true
    · simp [h1, h2]
    · simp [h1, h2]
  · simp [h1]

theorem copyStep_some_total_copies (v : VolumeEnv) (st : RunState) (s : Snapshot)
    (h : st.current_snap = some s) :
    (copyStep v st).total_copies =
      if v.clientOk && v.copyOk then st.total_copies + 1 else st.total_copies := by
  unfold copyStep
  rw [h]
  by_cases h1 : v.clientOk = true
  · by_cases h2 : v.copyOk = true
    · simp [h1, h2]
    · simp [h1, h2]
  · simp [h1]

theorem copyStep_dest_conn (v : VolumeEnv) (st : RunState) :
    (copyStep v st).dest_conn =
      match st.current_snap with
      | none => st.dest_conn
      | some _ => if v.clientOk then true else st.dest_conn := by
  unfold copyStep
  cases st.current_snap
  · rfl
  · split_ifs <;> rfl

theorem deleteOne_preserved (dest : List DestSnapshot) (snap : Snapshot) (st : RunState) :
    (exceptState (deleteOne dest snap st)).count_total = st.count_total
    ∧ (exceptState (deleteOne dest snap st)).count_success = st.count_success
    ∧ (exceptState (deleteOne dest snap st)).count_errors = st.count_errors
    ∧ (exceptState (deleteOne dest snap st)).total_creates = st.total_creates
    ∧ (exceptState (deleteOne dest snap st)).total_copies = st.total_copies
    ∧ (exceptState (deleteOne dest snap st)).current_snap = st.current_snap
    ∧ (exceptState (deleteOne dest snap st)).dest_conn = st.dest_conn
    ∧ (exceptState (deleteOne dest snap st)).pollCalls = st.pollCalls
    ∧ (exceptState (deleteOne dest snap st)).copyCalls = st.copyCalls
    ∧ (exceptState (deleteOne dest snap st)).copyTagCalls = st.copyTagCalls
    ∧ (exceptState (deleteOne dest snap st)).errmsg = st.errmsg := by
  unfold deleteOne exceptState
  by_cases h : st.dest_conn = true <;> simp [h]

theorem deletionLoop_preserved (dest : List DestSnapshot) (l : List Snapshot)
    (st : RunState) :
    (exceptState (deletionLoop dest l st)).count_total = st.count_total
    ∧ (exceptState (deletionLoop dest l st)).count_success = st.count_success
    ∧ (exceptState (deletionLoop dest l st)).count_errors = st.count_errors
    ∧ (exceptState (deletionLoop dest l st)).total_creates = st.total_creates
    ∧ (exceptState (deletionLoop dest l st)).total_copies = st.total_copies
    ∧ (exceptState (deletionLoop dest l st)).current_snap = st.current_snap
    ∧ (exceptState (deletionLoop dest l st)).dest_conn = st.dest_conn
    ∧ (exceptState (deletionLoop dest l st)).pollCalls = st.pollCalls
    ∧ (exceptState (deletionLoop dest l st)).copyCalls = st.copyCalls
    ∧ (exceptState (deletionLoop dest l st)).copyTagCalls = st.copyTagCalls
    ∧ (exceptState (deletionLoop dest l st)).errmsg = st.errmsg := by
  induction l generalizing st with
  | nil =>
    exact ⟨rfl, rfl, rfl, rfl, rfl, rfl, rfl, rfl, rfl, rfl, rfl⟩
  | cons snap rest ih =>
    simp only [deletionLoop]
    rcases hdo : deleteOne dest snap st with st' | st'
    · have hone := deleteOne_preserved dest snap st
      rw [hdo] at hone
      simp only [exceptState] at hone ⊢
      exact hone
    · have hone := deleteOne_preserved dest snap st
      rw [hdo] at hone
      simp only [exceptState] at hone
      have hrest := ih st'
      exact ⟨hrest.1.trans hone.1,
        hrest.2.1.trans hone.2.1,
        hrest.2.2.1.trans hone.2.2.1,
        hrest.2.2.2.1.trans hone.2.2.2.1,
        hrest.2.2.2.2.1.trans hone.2.2.2.2.1,
        hrest.2.2.2.2.2.1.trans hone.2.2.2.2.2.1,
        hrest.2.2.2.2.2.2.1.trans hone.2.2.2.2.2.2.1,
        hrest.2.2.2.2.2.2.2.1.trans hone.2.2.2.2.2.2.2.1,
        hrest.2.2.2.2.2.2.2.2.1.trans hone.2.2.2.2.2.2.2.2.1,
        hrest.2.2.2.2.2.2.2.2.2.1.trans hone.2.2.2.2.2.2.2.2.2.1,
        hrest.2.2.2.2.2.2.2.2.2.2.trans hone.2.2.2.2.2.2.2.2.2.2⟩

theorem copyPhase_preserved (cfg : Config) (v : VolumeEnv) (st : RunState) :
    (copyPhase cfg v st).count_total = st.count_total
    ∧ (copyPhase cfg v st).count_success = st.count_success
    ∧ (copyPhase cfg v st).count_errors = st.count_errors
    ∧ (copyPhase cfg v st).total_deletes = st.total_deletes
    ∧ (copyPhase cfg v st).deleteCalls = st.deleteCalls
    ∧ (copyPhase cfg v st).destQueryCalls = st.destQueryCalls
    ∧ (copyPhase cfg v st).destDeleteCalls = st.destDeleteCalls
    ∧ (copyPhase cfg v st).errmsg = st.errmsg := by
  have hcr := createStep_preserved cfg v st
  unfold copyPhase
  by_cases hc : (cfg.copy_region_name).isSome = true
  · rw [if_pos hc]
    have hcp := copyStep_preserved v (createStep cfg v st)
    unfold copyStep at hcp ⊢
    refine ⟨hcp.1.trans hcr.1, hcp.2.1.trans hcr.2.1, hcp.2.2.1.trans hcr.2.2.1, ?_, ?_, ?_, ?_, ?_⟩
    · exact hcp.2.2.2.2.1.trans hcr.2.2.2.2.1
    · exact hcp.2.2.2.2.2.2.1.trans hcr.2.2.2.2.2.2.1
    · exact hcp.2.2.2.2.2.2.2.1.trans hcr.2.2.2.2.2.2.2.2.2.2.1
    · exact hcp.2.2.2.2.2.2.2.2.1.trans hcr.2.2.2.2.2.2.2.2.2.2.2.1
    · exact hcp.2.2.2.2.2.2.2.2.2.trans hcr.2.2.2.2.2.2.2.2.2.2.2.2
  · rw [if_neg hc]
    exact ⟨hcr.1, hcr.2.1, hcr.2.2.1, hcr.2.2.2.2.1, hcr.2.2.2.2.2.2.1,
      hcr.2.2.2.2.2.2.2.2.2.2.1, hcr.2.2.2.2.2.2.2.2.2.2.2.1, hcr.2.2.2.2.2.2.2.2.2.2.2.2⟩

theorem volumeBody_counts (cfg : Config) (v : VolumeEnv) (st : RunState) :
    (exceptState (volumeBody cfg v st)).count_total = st.count_total + 1
    ∧ (exceptState (volumeBody cfg v st)).count_success = st.count_success
    ∧ (exceptState (volumeBody cfg v st)).count_errors = st.count_errors := by
  unfold volumeBody
  have hcv1 : (countVol v st).count_total = st.count_total + 1 := rfl
  have hcv2 : (countVol v st).count_success = st.count_success := rfl
  have hcv3 : (countVol v st).count_errors = st.count_errors := rfl
  have hcp := copyPhase_preserved cfg v (countVol v st)
  by_cases ht : v.tagsOk = true
  · rw [if_pos ht]
    by_cases hs : v.snapsOk = true
    · rw [if_pos hs]
      have hdl := deletionLoop_preserved v.destSnapshots (deletePrefix cfg v)
        (classifyPhase cfg v (copyPhase cfg v (countVol v st)))
      have hcl1 : (classifyPhase cfg v (copyPhase cfg v (countVol v st))).count_total =
          (copyPhase cfg v (countVol v st)).count_total := rfl
      have hcl2 : (classifyPhase cfg v (copyPhase cfg v (countVol v st))).count_success =
          (copyPhase cfg v (countVol v st)).count_success := rfl
      have hcl3 : (classifyPhase cfg v (copyPhase cfg v (countVol v st))).count_errors =
          (copyPhase cfg v (countVol v st)).count_errors := rfl
      exact ⟨hdl.1.trans (hcl1.trans (hcp.1.trans hcv1)),
        hdl.2.1.trans (hcl2.trans (hcp.2.1.trans hcv2)),
        hdl.2.2.1.trans (hcl3.trans (hcp.2.2.1.trans hcv3))⟩
    · rw [if_neg hs]
      exact ⟨hcp.1.trans hcv1, hcp.2.1.trans hcv2, hcp.2.2.1.trans hcv3⟩
  · rw [if_neg ht]
    exact ⟨hcv1, hcv2, hcv3⟩

theorem processVolume_counts (cfg : Config) (v : VolumeEnv) (st : RunState) :
    (processVolume cfg v st).count_total = st.count_total + 1
    ∧ (processVolume cfg v st).count_success + (processVolume cfg v st).count_errors
        = st.count_success + st.count_errors + 1 := by
  have hb := volumeBody_counts cfg v st
  unfold processVolume
  rcases hvb : volumeBody cfg v st with st' | st' <;>
    rw [hvb] at hb <;> simp only [exceptState] at hb
  · exact ⟨hb.1, by simp only []; omega⟩
  · exact ⟨hb.1, by simp only []; omega⟩

theorem runVolumes_counts (cfg : Config) (vols : List VolumeEnv) (st : RunState) :
    (runVolumes cfg vols st).count_total = st.count_total + vols.length
    ∧ (runVolumes cfg vols st).count_success + (runVolumes cfg vols st).count_errors
        = st.count_success + st.count_errors + vols.length := by
  induction vols generalizing st with
  | nil => exact ⟨rfl, rfl⟩
  | cons v rest ih =>
    have hpv := processVolume_counts cfg v st
    have hr := ih (processVolume cfg v st)
    simp only [runVolumes, List.length_cons]
    omega

/-- C3: every exception while processing a volume is caught at the volume
boundary — the handler logs the volume id, appends it to `errmsg` and
increments the error counter without propagating — the loop continues with
the next volume, every volume is counted, each ends in exactly one of
success or error, and the run always produces the final summary whatever the
counters are. -/
theorem C3_volume_isolation (cfg : Config) (vols : List VolumeEnv) (st : RunState) :
    (runVolumes cfg vols st).count_total = st.count_total + vols.length
    ∧ (runVolumes cfg vols st).count_success + (runVolumes cfg vols st).count_errors
        = st.count_success + st.count_errors + vols.length
    ∧ (∀ (v : VolumeEnv) (st' : RunState), volumeBody cfg v st = Except.error st' →
        processVolume cfg v st =
          { st' with
            count_errors := st'.count_errors + 1,
            errmsg := st'.errmsg ++ "Error in processing volume with id: " ++ v.vid,
            log := st'.log ++ ["Error in processing volume with id: " ++ v.vid] })
    ∧ (∀ (v : VolumeEnv) (rest : List VolumeEnv),
        runVolumes cfg (v :: rest) st = runVolumes cfg rest (processVolume cfg v st))
    ∧ (runAll cfg vols).2 = finalMessage cfg (runVolumes cfg vols initState) := by
  refine ⟨(runVolumes_counts cfg vols st).1, (runVolumes_counts cfg vols st).2, ?_, ?_, rfl⟩
  · intro v st' hvb
    unfold processVolume
    rw [hvb]
  · intro v rest
    rfl

/-- Witness for C3 at a concrete input: a run over two volumes of which the
first fails its tag fetch (an exception outside every inner handler) and the
second is clean; both are counted, one errors, one succeeds. -/
theorem C3_volume_isolation_witness :
    (runVolumes
      { period := Period.day, date_suffix := "Mon", date := "01-01-2020 10:00:00",
        copy_region_name := none, keep_day := 7, keep_week := 4, keep_month := 3,
        ec2_region_name := "us-east-1", sns_arn := none }
      [{ vid := "vol-a", tagsOk := false, tags_volume := [], createOk := true,
         newSnapId := "snap-a", newSnapStart := "2020-01-01", clientOk := true,
         copyOk := true, copiedSnapId := "copy-a", snapsOk := true, snapshots := [],
         destSnapshots := [] },
       { vid := "vol-b", tagsOk := true, tags_volume := [], createOk := true,
         newSnapId := "snap-b", newSnapStart := "2020-01-01", clientOk := true,
         copyOk := true, copiedSnapId := "copy-b", snapsOk := true, snapshots := [],
         destSnapshots := [] }] initState).count_total = initState.count_total + 2
    ∧ (runVolumes
      { period := Period.day, date_suffix := "Mon", date := "01-01-2020 10:00:00",
        copy_region_name := none, keep_day := 7, keep_week := 4, keep_month := 3,
        ec2_region_name := "us-east-1", sns_arn := none }
      [{ vid := "vol-a", tagsOk := false, tags_volume := [], createOk := true,
         newSnapId := "snap-a", newSnapStart := "2020-01-01", clientOk := true,
         copyOk := true, copiedSnapId := "copy-a", snapsOk := true, snapshots := [],
         destSnapshots := [] },
       { vid := "vol-b", tagsOk := true, tags_volume := [], createOk := true,
         newSnapId := "snap-b", newSnapStart := "2020-01-01", clientOk := true,
         copyOk := true, copiedSnapId := "copy-b", snapsOk := true, snapshots := [],
         destSnapshots := [] }] initState).count_success +
      (runVolumes
      { period := Period.day, date_suffix := "Mon", date := "01-01-2020 10:00:00",
        copy_region_name := none, keep_day := 7, keep_week := 4, keep_month := 3,
        ec2_region_name := "us-east-1", sns_arn := none }
      [{ vid := "vol-a", tagsOk := false, tags_volume := [], createOk := true,
         newSnapId := "snap-a", newSnapStart := "2020-01-01", clientOk := true,
         copyOk := true, copiedSnapId := "copy-a", snapsOk := true, snapshots := [],
         destSnapshots := [] },
       { vid := "vol-b", tagsOk := true, tags_volume := [], createOk := true,
         newSnapId := "snap-b", newSnapStart := "2020-01-01", clientOk := true,
         copyOk := true, copiedSnapId := "copy-b", snapsOk := true, snapshots := [],
         destSnapshots := [] }] initState).count_errors =
      initState.count_success + initState.count_errors + 2 :=
  ⟨(C3_volume_isolation
      { period := Period.day, date_suffix := "Mon", date := "01-01-2020 10:00:00",
        copy_region_name := none, keep_day := 7, keep_week := 4, keep_month := 3,
        ec2_region_name := "us-east-1", sns_arn := none }
      [{ vid := "vol-a", tagsOk := false, tags_volume := [], createOk := true,
         newSnapId := "snap-a", newSnapStart := "2020-01-01", clientOk := true,
         copyOk := true, copiedSnapId := "copy-a", snapsOk := true, snapshots := [],
         destSnapshots := [] },
       { vid := "vol-b", tagsOk := true, tags_volume := [], createOk := true,
         newSnapId := "snap-b", newSnapStart := "2020-01-01", clientOk := true,
         copyOk := true, copiedSnapId := "copy-b", snapsOk := true, snapshots := [],
         destSnapshots := [] }] initState).1,
   (C3_volume_isolation
      { period := Period.day, date_suffix := "Mon", date := "01-01-2020 10:00:00",
        copy_region_name := none, keep_day := 7, keep_week := 4, keep_month := 3,
        ec2_region_name := "us-east-1", sns_arn := none }
      [{ vid := "vol-a", tagsOk := false, tags_volume := [], createOk := true,
         newSnapId := "snap-a", newSnapStart := "2020-01-01", clientOk := true,
         copyOk := true, copiedSnapId := "copy-a", snapsOk := true, snapshots := [],
         destSnapshots := [] },
       { vid := "vol-b", tagsOk := true, tags_volume := [], createOk := true,
         newSnapId := "snap-b", newSnapStart := "2020-01-01", clientOk := true,
         copyOk := true, copiedSnapId := "copy-b", snapsOk := true, snapshots := [],
         destSnapshots := [] }] initState).2.1⟩

theorem deletePrefix_nil (cfg : Config) (v : VolumeEnv)
    (h : (buildDeletelist cfg.period v.snapshots).1.length ≤ keepFor cfg) :
    deletePrefix cfg v = [] := by
  unfold deletePrefix
  have h0 : (deletionDelta (buildDeletelist cfg.period v.snapshots).1.length
      (keepFor cfg)).toNat = 0 := by
    unfold deletionDelta
    omega
  rw [h0, List.take_zero]

theorem copyPhase_total_creates (cfg : Config) (v : VolumeEnv) (st : RunState) :
    (copyPhase cfg v st).total_creates =
      st.total_creates + (if v.createOk then 1 else 0) := by
  unfold copyPhase
  by_cases hc : (cfg.copy_region_name).isSome = true
  · rw [if_pos hc]
    rw [(copyStep_preserved v (createStep cfg v st)).2.2.2.1]
    exact createStep_total_creates cfg v st
  · rw [if_neg hc]
    exact createStep_total_creates cfg v st

theorem processVolume_clean (cfg : Config) (v : VolumeEnv) (st : RunState)
    (ht : v.tagsOk = true) (hs : v.snapsOk = true)
    (hk : (buildDeletelist cfg.period v.snapshots).1.length ≤ keepFor cfg) :
    (processVolume cfg v st).count_success = st.count_success + 1
    ∧ (processVolume cfg v st).count_errors = st.count_errors
    ∧ (processVolume cfg v st).total_creates =
        st.total_creates + (if v.createOk then 1 else 0) := by
  have hvb : volumeBody cfg v st =
      Except.ok (classifyPhase cfg v (copyPhase cfg v (countVol v st))) := by
    unfold volumeBody
    rw [if_pos ht, if_pos hs, deletePrefix_nil cfg v hk]
    rfl
  unfold processVolume
  rw [hvb]
  have hcp := copyPhase_preserved cfg v (countVol v st)
  refine ⟨?_, ?_, ?_⟩
  · show (classifyPhase cfg v (copyPhase cfg v (countVol v st))).count_success + 1 =
      st.count_success + 1
    have : (classifyPhase cfg v (copyPhase cfg v (countVol v st))).count_success =
        (copyPhase cfg v (countVol v st)).count_success := rfl
    rw [this, hcp.2.1]
    rfl
  · show (classifyPhase cfg v (copyPhase cfg v (countVol v st))).count_errors =
      st.count_errors
    have : (classifyPhase cfg v (copyPhase cfg v (countVol v st))).count_errors =
        (copyPhase cfg v (countVol v st)).count_errors := rfl
    rw [this, hcp.2.2.1]
    rfl
  · show (classifyPhase cfg v (copyPhase cfg v (countVol v st))).total_creates =
      st.total_creates + (if v.createOk then 1 else 0)
    have : (classifyPhase cfg v (copyPhase cfg v (countVol v st))).total_creates =
        (copyPhase cfg v (countVol v st)).total_creates := rfl
    rw [this, copyPhase_total_creates cfg v (countVol v st)]
    rfl

/-- A demo configuration: day rotation, generous keep-counts, no copy
region. -/
def demoCfg : Config :=
  { period := Period.day, date_suffix := "Mon", date := "01-01-2020 10:00:00",
    copy_region_name := none, keep_day := 7, keep_week := 4, keep_month := 3,
    ec2_region_name := "us-east-1", sns_arn := none }

/-- A demo volume whose every provider call succeeds except possibly
creation; it has no prior snapshots. -/
def demoVol (vid snapId : String) (createOk : Bool) : VolumeEnv :=
  { vid := vid, tagsOk := true, tags_volume := [], createOk := createOk,
    newSnapId := snapId, newSnapStart := "2020-01-01", clientOk := true,
    copyOk := true, copiedSnapId := "copy-" ++ snapId, snapsOk := true,
    snapshots := [], destSnapshots := [] }

/-- C2 counterexample: one volume of three throws during creation and every
other step succeeds — but the inner `try/except` around creation swallows
the exception, so the per-volume `else:` still fires: the report shows
3 succeeded and 0 errored (with 2 snapshots created), not 2 succeeded and
1 errored as the claim states. -/
theorem C2_counterexample :
    (runVolumes demoCfg [demoVol "vol-1" "snap-1" true, demoVol "vol-2" "snap-2" false,
        demoVol "vol-3" "snap-3" true] initState).count_success = 3
    ∧ (runVolumes demoCfg [demoVol "vol-1" "snap-1" true, demoVol "vol-2" "snap-2" false,
        demoVol "vol-3" "snap-3" true] initState).count_errors = 0
    ∧ (runVolumes demoCfg [demoVol "vol-1" "snap-1" true, demoVol "vol-2" "snap-2" false,
        demoVol "vol-3" "snap-3" true] initState).total_creates = 2
    ∧ ¬((runVolumes demoCfg [demoVol "vol-1" "snap-1" true, demoVol "vol-2" "snap-2" false,
        demoVol "vol-3" "snap-3" true] initState).count_success = 2
      ∧ (runVolumes demoCfg [demoVol "vol-1" "snap-1" true, demoVol "vol-2" "snap-2" false,
        demoVol "vol-3" "snap-3" true] initState).count_errors = 1) := by
  decide

/-- C2 as amended: if exactly one volume out of three throws during the
snapshot-creation step and every other step succeeds, the other two volumes
are fully processed — and so is the rest of the failing volume's workflow,
because the step-level handler swallows the creation error without counting
it: the final report shows 3 succeeded, 0 errored, and 2 snapshots created. -/
theorem C2_create_failure_swallowed (cfg : Config) (v1 v2 v3 : VolumeEnv) (st : RunState)
    (h1t : v1.tagsOk = true) (h1s : v1.snapsOk = true)
    (h1k : (buildDeletelist cfg.period v1.snapshots).1.length ≤ keepFor cfg)
    (h2t : v2.tagsOk = true) (h2s : v2.snapsOk = true)
    (h2k : (buildDeletelist cfg.period v2.snapshots).1.length ≤ keepFor cfg)
    (h3t : v3.tagsOk = true) (h3s : v3.snapsOk = true)
    (h3k : (buildDeletelist cfg.period v3.snapshots).1.length ≤ keepFor cfg)
    (hc1 : v1.createOk = true) (hc2 : v2.createOk = false) (hc3 : v3.createOk = true) :
    (runVolumes cfg [v1, v2, v3] st).count_success = st.count_success + 3
    ∧ (runVolumes cfg [v1, v2, v3] st).count_errors = st.count_errors
    ∧ (runVolumes cfg [v1, v2, v3] st).total_creates = st.total_creates + 2 := by
  have e1 := processVolume_clean cfg v1 st h1t h1s h1k
  have e2 := processVolume_clean cfg v2 (processVolume cfg v1 st) h2t h2s h2k
  have e3 := processVolume_clean cfg v3 (processVolume cfg v2 (processVolume cfg v1 st))
    h3t h3s h3k
  rw [hc1] at e1
  rw [hc2] at e2
  rw [hc3] at e3
  simp only [if_true, if_false, Bool.false_eq_true] at e1 e2 e3
  simp only [runVolumes]
  omega

/-- Witness for the amended C2 at a concrete three-volume run. -/
theorem C2_create_failure_swallowed_witness :
    (runVolumes demoCfg [demoVol "vol-1" "snap-1" true, demoVol "vol-2" "snap-2" false,
        demoVol "vol-3" "snap-3" true] initState).count_success =
      initState.count_success + 3
    ∧ (runVolumes demoCfg [demoVol "vol-1" "snap-1" true, demoVol "vol-2" "snap-2" false,
        demoVol "vol-3" "snap-3" true] initState).count_errors = initState.count_errors
    ∧ (runVolumes demoCfg [demoVol "vol-1" "snap-1" true, demoVol "vol-2" "snap-2" false,
        demoVol "vol-3" "snap-3" true] initState).total_creates =
      initState.total_creates + 2 :=
  C2_create_failure_swallowed demoCfg (demoVol "vol-1" "snap-1" true)
    (demoVol "vol-2" "snap-2" false) (demoVol "vol-3" "snap-3" true) initState
    rfl rfl (by decide) rfl rfl (by decide) rfl rfl (by decide) rfl rfl rfl

theorem copyPhase_none (cfg : Config) (v : VolumeEnv) (st : RunState)
    (hcr : cfg.copy_region_name = none) :
    copyPhase cfg v st = createStep cfg v st := by
  simp [copyPhase, hcr]

theorem deletionLoop_noconn (dest : List DestSnapshot) (snap : Snapshot)
    (rest : List Snapshot) (st : RunState) (h : st.dest_conn = false) :
    deletionLoop dest (snap :: rest) st = Except.error
      { st with log := st.log ++ ["     Deleting snapshot " ++ snap.description],
                deleteCalls := st.deleteCalls ++ [snap.sid] } := by
  simp [deletionLoop, deleteOne, h]

theorem volumeBody_dest_conn_none (cfg : Config) (v : VolumeEnv) (st : RunState)
    (hcr : cfg.copy_region_name = none) :
    (exceptState (volumeBody cfg v st)).dest_conn = st.dest_conn := by
  unfold volumeBody
  rw [copyPhase_none cfg v (countVol v st) hcr]
  have hcd : (createStep cfg v (countVol v st)).dest_conn = st.dest_conn :=
    (createStep_preserved cfg v (countVol v st)).2.2.2.2.2.1
  by_cases ht : v.tagsOk = true
  · rw [if_pos ht]
    by_cases hs : v.snapsOk = true
    · rw [if_pos hs]
      have hdl := (deletionLoop_preserved v.destSnapshots (deletePrefix cfg v)
        (classifyPhase cfg v (createStep cfg v (countVol v st)))).2.2.2.2.2.2.1
      exact hdl.trans hcd
    · rw [if_neg hs]
      exact hcd
  · rw [if_neg ht]
    rfl

theorem processVolume_dest_conn_none (cfg : Config) (v : VolumeEnv) (st : RunState)
    (hcr : cfg.copy_region_name = none) :
    (processVolume cfg v st).dest_conn = st.dest_conn := by
  have hb := volumeBody_dest_conn_none cfg v st hcr
  unfold processVolume
  rcases hvb : volumeBody cfg v st with st' | st' <;>
    rw [hvb] at hb <;> simp only [exceptState] at hb <;> exact hb

theorem runVolumes_dest_conn_none (cfg : Config) (vols : List VolumeEnv) (st : RunState)
    (hcr : cfg.copy_region_name = none) :
    (runVolumes cfg vols st).dest_conn = st.dest_conn := by
  induction vols generalizing st with
  | nil => rfl
  | cons v rest ih =>
    simp only [runVolumes]
    exact (ih (processVolume cfg v st)).trans (processVolume_dest_conn_none cfg v st hcr)

/-- C9: when no destination copy region is configured, `dest_conn` is never
bound anywhere in the run; for a volume whose candidate count exceeds the
keep-count the deletion loop deletes the single oldest candidate, then raises
`NameError` on `dest_conn` before `total_deletes += 1`: the volume is recorded
as errored, exactly one deletion call is issued for it, and the run's
total-deletes counter is unchanged. -/
theorem C9_no_copy_region_delete_crash (cfg : Config) (v : VolumeEnv) (st : RunState)
    (hcr : cfg.copy_region_name = none) (hdc : st.dest_conn = false)
    (ht : v.tagsOk = true) (hs : v.snapsOk = true)
    (hk : keepFor cfg < (buildDeletelist cfg.period v.snapshots).1.length) :
    (∃ oldest rest, sortSnaps (buildDeletelist cfg.period v.snapshots).1 = oldest :: rest
      ∧ (processVolume cfg v st).deleteCalls = st.deleteCalls ++ [oldest.sid]
      ∧ (∀ t ∈ (buildDeletelist cfg.period v.snapshots).1, snapLE oldest t = true)
      ∧ (processVolume cfg v st).total_deletes = st.total_deletes
      ∧ (processVolume cfg v st).count_errors = st.count_errors + 1
      ∧ (processVolume cfg v st).count_success = st.count_success)
    ∧ ∀ vols : List VolumeEnv, (runVolumes cfg vols initState).dest_conn = false := by
  constructor
  · have hlen := length_sortSnaps (buildDeletelist cfg.period v.snapshots).1
    rcases hsort : sortSnaps (buildDeletelist cfg.period v.snapshots).1 with _ | ⟨oldest, rest⟩
    · rw [hsort] at hlen
      simp only [List.length_nil] at hlen
      omega
    · obtain ⟨n, hn⟩ : ∃ n, (deletionDelta (buildDeletelist cfg.period v.snapshots).1.length
          (keepFor cfg)).toNat = n + 1 :=
        ⟨(deletionDelta (buildDeletelist cfg.period v.snapshots).1.length
          (keepFor cfg)).toNat - 1, by unfold deletionDelta; omega⟩
      have hpre : deletePrefix cfg v = oldest :: rest.take n := by
        unfold deletePrefix
        rw [hsort, hn, List.take_succ_cons]
      have hdcPre : (classifyPhase cfg v (copyPhase cfg v (countVol v st))).dest_conn = false := by
        show (copyPhase cfg v (countVol v st)).dest_conn = false
        rw [copyPhase_none cfg v _ hcr,
          (createStep_preserved cfg v (countVol v st)).2.2.2.2.2.1]
        exact hdc
      have hvb : volumeBody cfg v st = Except.error
          { (classifyPhase cfg v (copyPhase cfg v (countVol v st))) with
            log := (classifyPhase cfg v (copyPhase cfg v (countVol v st))).log ++
              ["     Deleting snapshot " ++ oldest.description],
            deleteCalls := (classifyPhase cfg v (copyPhase cfg v (countVol v st))).deleteCalls ++
              [oldest.sid] } := by
        unfold volumeBody
        rw [if_pos ht, if_pos hs, hpre]
        exact deletionLoop_noconn _ oldest _ _ hdcPre
      have hDel : (classifyPhase cfg v (copyPhase cfg v (countVol v st))).deleteCalls =
          st.deleteCalls := by
        show (copyPhase cfg v (countVol v st)).deleteCalls = st.deleteCalls
        rw [copyPhase_none cfg v _ hcr,
          (createStep_preserved cfg v (countVol v st)).2.2.2.2.2.2.1]
        rfl
      have hTot : (classifyPhase cfg v (copyPhase cfg v (countVol v st))).total_deletes =
          st.total_deletes := by
        show (copyPhase cfg v (countVol v st)).total_deletes = st.total_deletes
        rw [copyPhase_none cfg v _ hcr,
          (createStep_preserved cfg v (countVol v st)).2.2.2.2.1]
        rfl
      have hErr : (classifyPhase cfg v (copyPhase cfg v (countVol v st))).count_errors =
          st.count_errors := by
        show (copyPhase cfg v (countVol v st)).count_errors = st.count_errors
        rw [copyPhase_none cfg v _ hcr,
          (createStep_preserved cfg v (countVol v st)).2.2.1]
        rfl
      have hSuc : (classifyPhase cfg v (copyPhase cfg v (countVol v st))).count_success =
          st.count_success := by
        show (copyPhase cfg v (countVol v st)).count_success = st.count_success
        rw [copyPhase_none cfg v _ hcr,
          (createStep_preserved cfg v (countVol v st)).2.1]
        rfl
      refine ⟨oldest, rest, rfl, ?_, ?_, ?_, ?_, ?_⟩
      · show (processVolume cfg v st).deleteCalls = st.deleteCalls ++ [oldest.sid]
        unfold processVolume
        rw [hvb]
        show (classifyPhase cfg v (copyPhase cfg v (countVol v st))).deleteCalls ++
          [oldest.sid] = st.deleteCalls ++ [oldest.sid]
        rw [hDel]
      · intro t htmem
        have htmem' : t ∈ sortSnaps (buildDeletelist cfg.period v.snapshots).1 :=
          (perm_sortSnaps _).mem_iff.mpr htmem
        rw [hsort] at htmem'
        rcases List.mem_cons.mp htmem' with rfl | hmem
        · exact snapLE_refl _
        · have hpw := pairwise_sortSnaps (buildDeletelist cfg.period v.snapshots).1
          rw [hsort] at hpw
          exact (List.pairwise_cons.mp hpw).1 t hmem
      · unfold processVolume
        rw [hvb]
        show (classifyPhase cfg v (copyPhase cfg v (countVol v st))).total_deletes =
          st.total_deletes
        exact hTot
      · unfold processVolume
        rw [hvb]
        show (classifyPhase cfg v (copyPhase cfg v (countVol v st))).count_errors + 1 =
          st.count_errors + 1
        rw [hErr]
      · unfold processVolume
        rw [hvb]
        show (classifyPhase cfg v (copyPhase cfg v (countVol v st))).count_success =
          st.count_success
        exact hSuc
  · intro vols
    rw [runVolumes_dest_conn_none cfg vols initState hcr]
    rfl

/-- A keep-nothing day configuration without a copy region. -/
def pruneCfg : Config :=
  { period := Period.day, date_suffix := "Mon", date := "01-01-2020 10:00:00",
    copy_region_name := none, keep_day := 0, keep_week := 4, keep_month := 3,
    ec2_region_name := "us-east-1", sns_arn := none }

/-- A volume with one prior day snapshot, all provider calls succeeding. -/
def pruneVol : VolumeEnv :=
  { vid := "vol-9", tagsOk := true, tags_volume := [], createOk := true,
    newSnapId := "snap-9", newSnapStart := "2020-01-01", clientOk := true,
    copyOk := true, copiedSnapId := "copy-9", snapsOk := true,
    snapshots := [⟨"snap-old", "day_snapshot old", "2019-01-01"⟩],
    destSnapshots := [] }

/-- Witness for C9 at a concrete input: keep-count 0, one day snapshot, no
copy region. -/
theorem C9_no_copy_region_delete_crash_witness :
    (∃ oldest rest, sortSnaps (buildDeletelist pruneCfg.period pruneVol.snapshots).1 =
        oldest :: rest
      ∧ (processVolume pruneCfg pruneVol initState).deleteCalls =
          initState.deleteCalls ++ [oldest.sid]
      ∧ (∀ t ∈ (buildDeletelist pruneCfg.period pruneVol.snapshots).1,
          snapLE oldest t = true)
      ∧ (processVolume pruneCfg pruneVol initState).total_deletes =
          initState.total_deletes
      ∧ (processVolume pruneCfg pruneVol initState).count_errors =
          initState.count_errors + 1
      ∧ (processVolume pruneCfg pruneVol initState).count_success =
          initState.count_success)
    ∧ ∀ vols : List VolumeEnv, (runVolumes pruneCfg vols initState).dest_conn = false :=
  C9_no_copy_region_delete_crash pruneCfg pruneVol initState rfl rfl rfl rfl (by decide)

theorem processVolume_body_fields (cfg : Config) (v : VolumeEnv) (st : RunState) :
    (processVolume cfg v st).pollCalls = (exceptState (volumeBody cfg v st)).pollCalls
    ∧ (processVolume cfg v st).copyCalls = (exceptState (volumeBody cfg v st)).copyCalls
    ∧ (processVolume cfg v st).total_copies = (exceptState (volumeBody cfg v st)).total_copies
    ∧ (processVolume cfg v st).current_snap = (exceptState (volumeBody cfg v st)).current_snap
    ∧ (processVolume cfg v st).copyTagCalls = (exceptState (volumeBody cfg v st)).copyTagCalls := by
  unfold processVolume
  rcases volumeBody cfg v st with st' | st' <;>
    exact ⟨rfl, rfl, rfl, rfl, rfl⟩

theorem volumeBody_copy_fields (cfg : Config) (v : VolumeEnv) (st : RunState)
    (ht : v.tagsOk = true) :
    (exceptState (volumeBody cfg v st)).pollCalls =
      (copyPhase cfg v (countVol v st)).pollCalls
    ∧ (exceptState (volumeBody cfg v st)).copyCalls =
        (copyPhase cfg v (countVol v st)).copyCalls
    ∧ (exceptState (volumeBody cfg v st)).total_copies =
        (copyPhase cfg v (countVol v st)).total_copies
    ∧ (exceptState (volumeBody cfg v st)).copyTagCalls =
        (copyPhase cfg v (countVol v st)).copyTagCalls := by
  unfold volumeBody
  rw [if_pos ht]
  by_cases hs : v.snapsOk = true
  · rw [if_pos hs]
    have hdl := deletionLoop_preserved v.destSnapshots (deletePrefix cfg v)
      (classifyPhase cfg v (copyPhase cfg v (countVol v st)))
    exact ⟨hdl.2.2.2.2.2.2.2.1.trans rfl, hdl.2.2.2.2.2.2.2.2.1.trans rfl,
      hdl.2.2.2.2.1.trans rfl, hdl.2.2.2.2.2.2.2.2.2.1.trans rfl⟩
  · rw [if_neg hs]
    exact ⟨rfl, rfl, rfl, rfl⟩

theorem copyPhase_nocreate_none (cfg : Config) (v : VolumeEnv) (st : RunState)
    (hc : (cfg.copy_region_name).isSome = true) (hcreate : v.createOk = false)
    (hnone : st.current_snap = none) :
    (copyPhase cfg v st).pollCalls = st.pollCalls
    ∧ (copyPhase cfg v st).copyCalls = st.copyCalls
    ∧ (copyPhase cfg v st).total_copies = st.total_copies := by
  unfold copyPhase
  rw [if_pos hc]
  have hB : (createStep cfg v st).current_snap = none := by
    rw [createStep_current_snap, hcreate]
    simp [hnone]
  rw [copyStep_none v _ hB]
  exact ⟨(createStep_preserved cfg v st).2.2.2.2.2.2.2.1,
    (createStep_preserved cfg v st).2.2.2.2.2.2.2.2.1,
    (createStep_preserved cfg v st).2.2.2.1⟩

theorem copyPhase_nocreate_some (cfg : Config) (v : VolumeEnv) (st : RunState) (s : Snapshot)
    (hc : (cfg.copy_region_name).isSome = true) (hcreate : v.createOk = false)
    (hsome : st.current_snap = some s) :
    (copyPhase cfg v st).pollCalls = st.pollCalls ++ [s.sid]
    ∧ (v.clientOk = true → v.copyOk = true →
        (copyPhase cfg v st).copyCalls = st.copyCalls ++ [s.sid]) := by
  unfold copyPhase
  rw [if_pos hc]
  have hB : (createStep cfg v st).current_snap = some s := by
    rw [createStep_current_snap, hcreate]
    simp [hsome]
  constructor
  · rw [copyStep_some_pollCalls v _ s hB, (createStep_preserved cfg v st).2.2.2.2.2.2.2.1]
  · intro h1 h2
    rw [copyStep_some_copyCalls v _ s hB, h1, h2]
    simp [(createStep_preserved cfg v st).2.2.2.2.2.2.2.2.1]

theorem volumeBody_current_snap (cfg : Config) (w : VolumeEnv) (st2 : RunState) :
    (exceptState (volumeBody cfg w st2)).current_snap =
      if w.tagsOk && w.createOk then some (newSnapOf cfg w) else st2.current_snap := by
  have hcp : (copyPhase cfg w (countVol w st2)).current_snap =
      if w.createOk then some (newSnapOf cfg w) else st2.current_snap := by
    unfold copyPhase
    by_cases hcc : (cfg.copy_region_name).isSome = true
    · rw [if_pos hcc, (copyStep_preserved w (createStep cfg w (countVol w st2))).2.2.2.2.2.1,
        createStep_current_snap]
      rfl
    · rw [if_neg hcc, createStep_current_snap]
      rfl
  unfold volumeBody
  by_cases ht : w.tagsOk = true
  · rw [if_pos ht, ht]
    by_cases hs : w.snapsOk = true
    · rw [if_pos hs]
      have hdl := (deletionLoop_preserved w.destSnapshots (deletePrefix cfg w)
        (classifyPhase cfg w (copyPhase cfg w (countVol w st2)))).2.2.2.2.2.1
      rw [hdl]
      show (copyPhase cfg w (countVol w st2)).current_snap = _
      rw [hcp]
      simp
    · rw [if_neg hs]
      show (copyPhase cfg w (countVol w st2)).current_snap = _
      rw [hcp]
      simp
  · rw [if_neg ht]
    have ht' : w.tagsOk = false := by
      rwa [Bool.not_eq_true] at ht
    rw [ht']
    simp only [Bool.false_and, Bool.false_eq_true, if_false]
    rfl

theorem processVolume_current_snap (cfg : Config) (w : VolumeEnv) (st2 : RunState) :
    (processVolume cfg w st2).current_snap =
      if w.tagsOk && w.createOk then some (newSnapOf cfg w) else st2.current_snap := by
  rw [(processVolume_body_fields cfg w st2).2.2.2.1]
  exact volumeBody_current_snap cfg w st2

/-- C10: when creation fails for a volume and a copy region is configured,
the copy step never operates on a snapshot of the current volume: with no
earlier successful creation (`current_snap` unbound) it raises at once and
is swallowed — no poll, no copy, no copy counted — and with an earlier
successful creation it polls and (when the client and copy calls succeed)
copies that stale snapshot; `current_snap` after any volume is the snapshot
of the most recent volume whose tag fetch and creation both succeeded. -/
theorem C10_stale_snapshot_in_copy_step (cfg : Config) (v : VolumeEnv) (st : RunState)
    (s : Snapshot) (hc : (cfg.copy_region_name).isSome = true)
    (ht : v.tagsOk = true) (hcreate : v.createOk = false) :
    (st.current_snap = none →
      (processVolume cfg v st).pollCalls = st.pollCalls
      ∧ (processVolume cfg v st).copyCalls = st.copyCalls
      ∧ (processVolume cfg v st).total_copies = st.total_copies)
    ∧ (st.current_snap = some s →
      (processVolume cfg v st).pollCalls = st.pollCalls ++ [s.sid]
      ∧ (v.clientOk = true → v.copyOk = true →
          (processVolume cfg v st).copyCalls = st.copyCalls ++ [s.sid]))
    ∧ (∀ (w : VolumeEnv) (st2 : RunState),
      (processVolume cfg w st2).current_snap =
        if w.tagsOk && w.createOk then some (newSnapOf cfg w) else st2.current_snap) := by
  refine ⟨?_, ?_, fun w st2 => processVolume_current_snap cfg w st2⟩
  · intro hnone
    have hb := volumeBody_copy_fields cfg v st ht
    have hcpp := copyPhase_nocreate_none cfg v (countVol v st) hc hcreate hnone
    have hp := processVolume_body_fields cfg v st
    refine ⟨?_, ?_, ?_⟩
    · rw [hp.1, hb.1, hcpp.1]
      rfl
    · rw [hp.2.1, hb.2.1, hcpp.2.1]
      rfl
    · rw [hp.2.2.1, hb.2.2.1, hcpp.2.2]
      rfl
  · intro hsome
    have hb := volumeBody_copy_fields cfg v st ht
    have hcpp := copyPhase_nocreate_some cfg v (countVol v st) s hc hcreate hsome
    have hp := processVolume_body_fields cfg v st
    refine ⟨?_, fun h1 h2 => ?_⟩
    · rw [hp.1, hb.1, hcpp.1]
      rfl
    · rw [hp.2.1, hb.2.1, hcpp.2 h1 h2]
      rfl

/-- A day configuration with a destination copy region. -/
def copyCfg : Config :=
  { period := Period.day, date_suffix := "Mon", date := "01-01-2020 10:00:00",
    copy_region_name := some "eu-west-1", keep_day := 7, keep_week := 4,
    keep_month := 3, ec2_region_name := "us-east-1", sns_arn := none }

/-- The snapshot a previous volume's successful creation left bound. -/
def prevSnap : Snapshot := ⟨"snap-prev", "day_snapshot prev", "2019-01-01"⟩

/-- A run state in which `current_snap` still holds `prevSnap`. -/
def staleState : RunState := { initState with current_snap := some prevSnap }

/-- Witness for C10 at concrete inputs: with `current_snap` dangling from an
earlier volume the failing volume's copy step polls and copies the stale
snapshot, and with `current_snap` unbound it does nothing. -/
theorem C10_stale_snapshot_in_copy_step_witness :
    (processVolume copyCfg (demoVol "vol-s" "snap-s" false) staleState).pollCalls =
      staleState.pollCalls ++ ["snap-prev"]
    ∧ (processVolume copyCfg (demoVol "vol-s" "snap-s" false) staleState).copyCalls =
      staleState.copyCalls ++ ["snap-prev"]
    ∧ (processVolume copyCfg (demoVol "vol-s" "snap-s" false) initState).pollCalls =
      initState.pollCalls :=
  ⟨((C10_stale_snapshot_in_copy_step copyCfg (demoVol "vol-s" "snap-s" false) staleState
      prevSnap rfl rfl rfl).2.1 rfl).1,
   ((C10_stale_snapshot_in_copy_step copyCfg (demoVol "vol-s" "snap-s" false) staleState
      prevSnap rfl rfl rfl).2.1 rfl).2 rfl rfl,
   ((C10_stale_snapshot_in_copy_step copyCfg (demoVol "vol-s" "snap-s" false) initState
      prevSnap rfl rfl rfl).1 rfl).1⟩

/-- The C5 counterexample configuration: copy region set, keep-count 0. -/
def c5Cfg : Config :=
  { period := Period.day, date_suffix := "Mon", date := "01-01-2020 10:00:00",
    copy_region_name := some "eu-west-1", keep_day := 0, keep_week := 4,
    keep_month := 3, ec2_region_name := "us-east-1", sns_arn := none }

/-- The C5 counterexample volume: creation succeeds, the destination client
construction raises, one old day snapshot exists, and the destination holds a
copy back-referencing it. -/
def c5Vol : VolumeEnv :=
  { vid := "vol-c5", tagsOk := true, tags_volume := [], createOk := true,
    newSnapId := "snap-new", newSnapStart := "2020-06-01", clientOk := false,
    copyOk := true, copiedSnapId := "copy-x", snapsOk := true,
    snapshots := [⟨"snap-old", "day_snapshot old", "2019-01-01"⟩],
    destSnapshots := [⟨"copy-1", [("source_snapshot_id", "snap-old")], true⟩] }

/-- C5 counterexample: with a copy region configured but the destination
client construction failing for the first volume, `dest_conn` is never
bound; the deletion loop still deletes the source snapshot `snap-old` and
then raises on `dest_conn`: no destination query is made and the copy whose
`source_snapshot_id` tag points at `snap-old` survives — refuting "when the
run deletes a source Snapshot it queries the destination region and deletes
exactly those ... copies". -/
theorem C5_counterexample :
    (runVolumes c5Cfg [c5Vol] initState).deleteCalls = ["snap-old"]
    ∧ (runVolumes c5Cfg [c5Vol] initState).destQueryCalls = []
    ∧ (runVolumes c5Cfg [c5Vol] initState).destDeleteCalls = []
    ∧ cascadeTargets c5Vol.destSnapshots "snap-old" ≠ [] := by
  decide

/-- C5 as amended: every issued cross-region copy is tagged with
`source_snapshot_id` equal to the id of the snapshot it was copied from
(with the Name fallback to that id when the volume has no Name tag), and the
destination query returns exactly the self-owned snapshots whose
`source_snapshot_id` tag equals the deleted snapshot's id; when the
destination connection is bound, each source deletion queries and deletes
exactly those — but when it was never bound the source snapshot is deleted
and the loop then raises with no destination query at all. -/
theorem C5_copy_tag_roundtrip (v : VolumeEnv) (st : RunState)
    (s : Snapshot) (dest : List DestSnapshot) (snap : Snapshot) (d : DestSnapshot)
    (sid : String) :
    (st.current_snap = some s → v.clientOk = true → v.copyOk = true →
      (copyStep v st).copyCalls = st.copyCalls ++ [s.sid]
      ∧ (copyStep v st).copyTagCalls = st.copyTagCalls ++
          [(v.copiedSnapId,
            [("source_snapshot_id", s.sid), ("Name", nameTagValue v.tags_volume s.sid)])])
    ∧ (d ∈ cascadeTargets dest sid ↔
        d ∈ dest ∧ d.ownedSelf = true ∧ d.tags.lookup "source_snapshot_id" = some sid)
    ∧ (st.dest_conn = true →
        (∃ st2, deleteOne dest snap st = Except.ok st2)
        ∧ (exceptState (deleteOne dest snap st)).deleteCalls = st.deleteCalls ++ [snap.sid]
        ∧ (exceptState (deleteOne dest snap st)).destQueryCalls =
            st.destQueryCalls ++ [snap.sid]
        ∧ (exceptState (deleteOne dest snap st)).destDeleteCalls =
            st.destDeleteCalls ++ (cascadeTargets dest snap.sid).map DestSnapshot.sid
        ∧ (exceptState (deleteOne dest snap st)).total_deletes = st.total_deletes + 1)
    ∧ (st.dest_conn = false →
        (∃ st1, deleteOne dest snap st = Except.error st1)
        ∧ (exceptState (deleteOne dest snap st)).deleteCalls = st.deleteCalls ++ [snap.sid]
        ∧ (exceptState (deleteOne dest snap st)).destQueryCalls = st.destQueryCalls
        ∧ (exceptState (deleteOne dest snap st)).destDeleteCalls = st.destDeleteCalls) := by
  refine ⟨?_, ?_, ?_, ?_⟩
  · intro hsome h1 h2
    constructor
    · rw [copyStep_some_copyCalls v st s hsome, h1, h2]
      rfl
    · rw [copyStep_some_copyTagCalls v st s hsome, h1, h2]
      rfl
  · unfold cascadeTargets
    rw [List.mem_filter]
    simp [Bool.and_eq_true, beq_iff_eq]
  · intro h
    refine ⟨?_, ?_, ?_, ?_, ?_⟩ <;> simp [deleteOne, exceptState, h]
  · intro h
    refine ⟨?_, ?_, ?_, ?_⟩ <;> simp [deleteOne, exceptState, h]

/-- Witness for the amended C5 at concrete inputs: a successful copy of
`prevSnap` is tagged with its id, and a bound-connection deletion of
`snap-old` queries and cascade-deletes exactly the matching copy. -/
theorem C5_copy_tag_roundtrip_witness :
    ((copyStep (demoVol "vol-w" "snap-w" true) staleState).copyCalls =
        staleState.copyCalls ++ ["snap-prev"]
      ∧ (copyStep (demoVol "vol-w" "snap-w" true) staleState).copyTagCalls =
          staleState.copyTagCalls ++
            [("copy-snap-w", [("source_snapshot_id", "snap-prev"),
              ("Name", "snap-prev")])])
    ∧ ((exceptState (deleteOne [⟨"copy-1", [("source_snapshot_id", "snap-old")], true⟩]
          ⟨"snap-old", "day_snapshot old", "2019-01-01"⟩
          { initState with dest_conn := true })).destDeleteCalls =
        initState.destDeleteCalls ++ ["copy-1"]) :=
  ⟨(C5_copy_tag_roundtrip (demoVol "vol-w" "snap-w" true) staleState prevSnap
      [] ⟨"x", "y", "z"⟩ ⟨"w", [], true⟩ "q").1 rfl rfl rfl,
   ((C5_copy_tag_roundtrip (demoVol "vol-w" "snap-w" true)
      { initState with dest_conn := true } prevSnap
      [⟨"copy-1", [("source_snapshot_id", "snap-old")], true⟩]
      ⟨"snap-old", "day_snapshot old", "2019-01-01"⟩ ⟨"w", [], true⟩ "q").2.2.1
        rfl).2.2.2.1⟩

theorem deleteOne_deleteCalls (dest : List DestSnapshot) (snap : Snapshot) (st : RunState) :
    (exceptState (deleteOne dest snap st)).deleteCalls = st.deleteCalls ++ [snap.sid] := by
  unfold deleteOne exceptState
  by_cases h : st.dest_conn = true <;> simp [h]

theorem deletionLoop_deleteCalls (dest : List DestSnapshot) (l : List Snapshot)
    (st : RunState) :
    ∃ extra, (exceptState (deletionLoop dest l st)).deleteCalls = st.deleteCalls ++ extra
      ∧ ∀ x ∈ extra, x ∈ l.map Snapshot.sid := by
  induction l generalizing st with
  | nil =>
    exact ⟨[], by simp [deletionLoop, exceptState], by simp⟩
  | cons snap rest ih =>
    simp only [deletionLoop]
    rcases hdo : deleteOne dest snap st with st' | st'
    · have h1 := deleteOne_deleteCalls dest snap st
      rw [hdo] at h1
      simp only [exceptState] at h1 ⊢
      exact ⟨[snap.sid], h1, by simp⟩
    · have h1 := deleteOne_deleteCalls dest snap st
      rw [hdo] at h1
      simp only [exceptState] at h1
      obtain ⟨extra, he, hsub⟩ := ih st'
      refine ⟨snap.sid :: extra, ?_, ?_⟩
      · rw [he, h1]
        simp
      · intro x hx
        rcases List.mem_cons.mp hx with rfl | hx
        · simp
        · simp only [List.map_cons, List.mem_cons]
          exact Or.inr (hsub x hx)

theorem volumeBody_deleteCalls (cfg : Config) (v : VolumeEnv) (st : RunState) :
    ∃ extra, (exceptState (volumeBody cfg v st)).deleteCalls = st.deleteCalls ++ extra
      ∧ ∀ x ∈ extra, x ∈ ((buildDeletelist cfg.period v.snapshots).1.map Snapshot.sid) := by
  unfold volumeBody
  have hcpd : (copyPhase cfg v (countVol v st)).deleteCalls = st.deleteCalls :=
    (copyPhase_preserved cfg v (countVol v st)).2.2.2.2.1
  by_cases ht : v.tagsOk = true
  · rw [if_pos ht]
    by_cases hs : v.snapsOk = true
    · rw [if_pos hs]
      obtain ⟨extra, he, hsub⟩ := deletionLoop_deleteCalls v.destSnapshots
        (deletePrefix cfg v) (classifyPhase cfg v (copyPhase cfg v (countVol v st)))
      refine ⟨extra, ?_, ?_⟩
      · rw [he]
        show (copyPhase cfg v (countVol v st)).deleteCalls ++ extra = st.deleteCalls ++ extra
        rw [hcpd]
      · intro x hx
        have hx' := hsub x hx
        rcases List.mem_map.mp hx' with ⟨sn, hsn, rfl⟩
        have hsn1 : sn ∈ sortSnaps (buildDeletelist cfg.period v.snapshots).1 :=
          List.mem_of_mem_take hsn
        have hsn2 : sn ∈ (buildDeletelist cfg.period v.snapshots).1 :=
          (perm_sortSnaps _).mem_iff.mp hsn1
        exact List.mem_map_of_mem Snapshot.sid hsn2
    · rw [if_neg hs]
      exact ⟨[], by simp [exceptState, hcpd], by simp⟩
  · rw [if_neg ht]
    refine ⟨[], ?_, by simp⟩
    show (countVol v st).deleteCalls = st.deleteCalls ++ []
    simp [countVol]

theorem processVolume_deleteCalls_eq (cfg : Config) (v : VolumeEnv) (st : RunState) :
    (processVolume cfg v st).deleteCalls = (exceptState (volumeBody cfg v st)).deleteCalls := by
  unfold processVolume
  rcases volumeBody cfg v st with st' | st' <;> rfl

/-- C4: membership in `deletelist` is exactly the exact-prefix test
`description.startswith("<period>_snapshot")` for the active period;
`day_snapshot_extra text` matches period `day` while `daily_snapshot`
matches no period; a snapshot matching no period is logged as skipped and
stays out of `deletelist`; and every deletion call a volume issues names a
member of that volume's `deletelist`. -/
theorem C4_exact_prefix_classification (p : Period) (snaps : List Snapshot)
    (snap : Snapshot) :
    (snap ∈ (buildDeletelist p snaps).1 ↔
      snap ∈ snaps ∧ strStartsWith snap.description (periodStr p ++ "_snapshot") = true)
    ∧ inDeletelist Period.day "day_snapshot_extra text" = true
    ∧ (∀ q : Period, inDeletelist q "daily_snapshot" = false)
    ∧ (snap ∈ snaps → inDeletelist p snap.description = false →
        skipLine snap.description ∈ (buildDeletelist p snaps).2
        ∧ snap ∉ (buildDeletelist p snaps).1)
    ∧ (∀ (cfg : Config) (v : VolumeEnv) (st : RunState), ∃ extra,
        (processVolume cfg v st).deleteCalls = st.deleteCalls ++ extra
        ∧ ∀ x ∈ extra, x ∈ ((buildDeletelist cfg.period v.snapshots).1.map Snapshot.sid)) := by
  refine ⟨?_, by decide, ?_, ?_, ?_⟩
  · rw [buildDeletelist_fst, List.mem_filter, inDeletelist_iff]
  · intro q
    cases q <;> decide
  · intro hmem hnot
    constructor
    · rw [buildDeletelist_snd]
      refine List.mem_map.mpr ⟨snap, ?_, rfl⟩
      rw [List.mem_filter]
      refine ⟨hmem, ?_⟩
      rw [hnot]
      rfl
    · intro hdel
      rw [buildDeletelist_fst, List.mem_filter] at hdel
      rw [hnot] at hdel
      exact absurd hdel.2 (by simp)
  · intro cfg v st
    obtain ⟨extra, he, hsub⟩ := volumeBody_deleteCalls cfg v st
    exact ⟨extra, (processVolume_deleteCalls_eq cfg v st).trans he, hsub⟩

/-- Witness for C4 at concrete inputs: `daily_snapshot` is skip-logged and
excluded from `deletelist`, and the classification iff holds at a matching
description. -/
theorem C4_exact_prefix_classification_witness :
    (skipLine "daily_snapshot" ∈
        (buildDeletelist Period.day [⟨"x", "daily_snapshot", "2020-01-01"⟩]).2
      ∧ (⟨"x", "daily_snapshot", "2020-01-01"⟩ : Snapshot) ∉
        (buildDeletelist Period.day [⟨"x", "daily_snapshot", "2020-01-01"⟩]).1)
    ∧ ((⟨"y", "day_snapshot_extra text", "2020-01-01"⟩ : Snapshot) ∈
        (buildDeletelist Period.day [⟨"y", "day_snapshot_extra text", "2020-01-01"⟩]).1 ↔
      (⟨"y", "day_snapshot_extra text", "2020-01-01"⟩ : Snapshot) ∈
        [(⟨"y", "day_snapshot_extra text", "2020-01-01"⟩ : Snapshot)]
      ∧ strStartsWith "day_snapshot_extra text" (periodStr Period.day ++ "_snapshot") = true) :=
  ⟨(C4_exact_prefix_classification Period.day [⟨"x", "daily_snapshot", "2020-01-01"⟩]
      ⟨"x", "daily_snapshot", "2020-01-01"⟩).2.2.2.1 (by decide) (by decide),
   (C4_exact_prefix_classification Period.day [⟨"y", "day_snapshot_extra text", "2020-01-01"⟩]
      ⟨"y", "day_snapshot_extra text", "2020-01-01"⟩).1⟩
